import Mathlib

/-!
Shallow embedding of the EpiAgents simulation engine found in
src/epiagents/epiagents.js (the EpiAgents IIFE; the EpiAgentsUI half is
browser rendering and out of scope).  JavaScript objects with
insertion-ordered string keys are modelled as association lists kept in
insertion order, JavaScript numbers as exact rationals, and the ambient
Math.random() source as an explicit stream of rationals together with a
consumption index threaded through every operation in source order.  A
read of a property that no code path ever assigns is modelled by an
Option field holding none, and a JavaScript comparison x < undefined,
which is always false, is modelled by jsLtOpt.
-/

namespace EpiAgents

/-- Compartment name used by the default catalog. -/
def sSUSCEPTIBLE : String := "SUSCEPTIBLE"

/-- Compartment name used by the default catalog. -/
def sINFECTED_EXPOSED : String := "INFECTED_EXPOSED"

/-- Compartment name used by the default catalog. -/
def sINFECTED_ASYMPTOMATIC : String := "INFECTED_ASYMPTOMATIC"

/-- Compartment name used by the default catalog. -/
def sINFECTED_SYMPTOMATIC : String := "INFECTED_SYMPTOMATIC"

/-- Compartment name used by the default catalog. -/
def sINFECTED_ISOLATED : String := "INFECTED_ISOLATED"

/-- Compartment name used by the default catalog. -/
def sINFECTED_HOSPITAL : String := "INFECTED_HOSPITAL"

/-- Compartment name used by the default catalog. -/
def sINFECTED_ICU : String := "INFECTED_ICU"

/-- Compartment name used by the default catalog. -/
def sTREATED : String := "TREATED"

/-- Compartment name used by the default catalog. -/
def sRECOVERED : String := "RECOVERED"

/-- Compartment name used by the default catalog. -/
def sVACCINATED : String := "VACCINATED"

/-- Compartment name used by the default catalog. -/
def sDEAD : String := "DEAD"

/-- Name of the compulsory alive counter. -/
def kAlive : String := "alive"

/-- Name of the compulsory cumulative initial-infection counter. -/
def kTotalInitialInfections : String := "total_initial_infections"

/-- Name of the compulsory cumulative transmission counter. -/
def kTotalSimulationInfections : String := "total_simulation_infections"

/-- Name of the compulsory infection-prevalence counter. -/
def kInfections : String := "infections"

/-- The six-character counter-name front tested by eventCalcResults via
key.substr(0, 6). -/
def totalFront : String := "total_"

/-- Row marker written by eventRecordResult in the BEFORE phase. -/
def sS : String := "S"

/-- Row marker written by eventRecordResult in the AFTER phase. -/
def sE : String := "E"

/-- First cell written by eventRecordResultHeader. -/
def sHash : String := "#"

/-- String key produced when JavaScript coerces the boolean false, as in
the expression (!from_state) in cluster.states. -/
def sFalse : String := "false"

/-- String key produced when JavaScript coerces the boolean true. -/
def sTrue : String := "true"

/-- The empty string, the only falsy string in JavaScript. -/
def emptyStr : String := ""

/-- One compartment record of a catalog: the value part of one entry of
the SimulationStates object (epiagents.js lines 41-159).  The derived
field initial_proportion is added later by calcInitialRatios; none models
the property being absent or non-finite. -/
structure StateDef where
  description : String
  color : String
  infected : Bool
  infectiousness : ℚ
  initialRatio : ℚ
  nextStateProb : List (String × ℚ)
  initial_proportion : Option ℚ := none
deriving DecidableEq

/-- A compartment catalog: a JavaScript object mapping compartment names
to records, kept in insertion order. -/
abbrev Catalog := List (String × StateDef)

/-- The default compartment catalog (epiagents.js lines 41-159),
translated entry by entry in source order.  Decimal probability literals
of the source are written as the same exact rationals via mkRat, which
evaluates inside the kernel, so that concrete runs can be settled by
decide. -/
def SimulationStates : Catalog := [
  (sSUSCEPTIBLE, {
    description := "susceptible", color := "rgb(0, 0, 255)",
    infected := false, infectiousness := 0,
    initialRatio := 95,
    nextStateProb := [(sVACCINATED, mkRat 25 10000)] }),
  (sINFECTED_EXPOSED, {
    description := "exposed", color := "rgb(200, 0, 0)",
    infected := true, infectiousness := 0,
    initialRatio := 3,
    nextStateProb := [(sINFECTED_ASYMPTOMATIC, mkRat 33 100)] }),
  (sINFECTED_ASYMPTOMATIC, {
    description := "asymptomatic", color := "rgb(210, 0, 0)",
    infected := true, infectiousness := mkRat 1 10,
    initialRatio := 1,
    nextStateProb := [(sINFECTED_SYMPTOMATIC, mkRat 33 100), (sRECOVERED, mkRat 33 100)] }),
  (sINFECTED_SYMPTOMATIC, {
    description := "symptomatic", color := "rgb(220, 0, 0)",
    infected := true, infectiousness := mkRat 5 10,
    initialRatio := 1,
    nextStateProb := [(sINFECTED_ISOLATED, mkRat 1 10),
                      (sINFECTED_HOSPITAL, mkRat 1 10), (sRECOVERED, mkRat 1 10)] }),
  (sINFECTED_ISOLATED, {
    description := "isolated", color := "rgb(225, 0, 0)",
    infected := true, infectiousness := mkRat 1 1000,
    initialRatio := 0,
    nextStateProb := [(sINFECTED_HOSPITAL, mkRat 1 10), (sRECOVERED, mkRat 1 10)] }),
  (sINFECTED_HOSPITAL, {
    description := "hospitalized", color := "rgb(230, 0, 0)",
    infected := true, infectiousness := mkRat 5 10,
    initialRatio := 0,
    nextStateProb := [(sINFECTED_ICU, mkRat 1 10), (sRECOVERED, mkRat 1 10)] }),
  (sINFECTED_ICU, {
    description := "high care", color := "rgb(240, 0, 0)",
    infected := true, infectiousness := mkRat 5 10,
    initialRatio := 0,
    nextStateProb := [(sDEAD, mkRat 5 10), (sRECOVERED, mkRat 1 10)] }),
  (sTREATED, {
    description := "treated", color := "rgb(0, 150, 40)",
    infected := true, infectiousness := mkRat 1 1000,
    initialRatio := 0,
    nextStateProb := [(sDEAD, mkRat 1 10000), (sINFECTED_ASYMPTOMATIC, mkRat 1 1000)] }),
  (sRECOVERED, {
    description := "recovered", color := "rgb(0, 150, 0)",
    infected := false, infectiousness := 0,
    initialRatio := 0,
    nextStateProb := [(sSUSCEPTIBLE, mkRat 1 1000), (sVACCINATED, mkRat 1 1000)] }),
  (sVACCINATED, {
    description := "vaccinated", color := "rgb(0, 255, 0)",
    infected := false, infectiousness := 0,
    initialRatio := 0,
    nextStateProb := [(sSUSCEPTIBLE, mkRat 5 10000)] }),
  (sDEAD, {
    description := "dead", color := "rgb(0, 0, 0)",
    infected := false, infectiousness := 0,
    initialRatio := 0,
    nextStateProb := [] })]

/-- Membership test state in cluster.states. -/
def hasState (cat : Catalog) (k : String) : Bool :=
  cat.any (fun e => e.1 = k)

/-- Property read cluster.states[k], none when the key is absent (where
JavaScript would yield undefined). -/
def findState (cat : Catalog) (k : String) : Option StateDef :=
  (cat.find? (fun e => e.1 = k)).map (fun e => e.2)

/-- Counter lookup sim.counters[k].num, none when the key is absent:
first-match lookup in the insertion-ordered counter table. -/
def cLookup (k : String) : List (String × ℕ) → Option ℕ
  | [] => none
  | e :: t => if e.1 = k then some e.2 else cLookup k t

/-- The increment ++sim.counters[k].num, a no-op when the key is absent. -/
def cIncr (k : String) (cs : List (String × ℕ)) : List (String × ℕ) :=
  cs.map (fun e => if e.1 = k then (e.1, e.2 + 1) else e)

/-- The comparison d < p where p may be an undefined property: in
JavaScript a comparison against undefined is always false. -/
def jsLtOpt (d : ℚ) : Option ℚ → Bool
  | none => false
  | some p => decide (d < p)

/-- The eight fixed movement directions (epiagents.js lines 178-179). -/
def DIRECTION : List (ℤ × ℤ) :=
  [(-1, -1), (-1, 0), (-1, 1), (0, -1), (0, 1), (1, -1), (1, 0), (1, 1)]

/-- Iteration marker stored in one history entry: either the string "S"
written by calcInitialStates or a numeric iteration index. -/
inductive Marker where
  | start : Marker
  | it : ℕ → Marker
deriving DecidableEq

/-- One agent (class Agent, epiagents.js lines 411-520).  The cluster
back-reference is the index of the owning cluster in sim.clusters.  The
field movement_randomness models the property read by Agent.move; no code
path ever assigns it (the constructor assigns this.movementRandomness, a
gaussian sampler function, instead), so it is always none. -/
structure Agent where
  id : ℕ
  radius : ℚ
  speed : ℚ
  x : ℚ
  y : ℚ
  dx : ℚ
  dy : ℚ
  states : List (Marker × String)
  clusterIdx : ℕ
  movement_randomness : Option ℚ := none
deriving DecidableEq

/-- Agent.getStateKey: the compartment name of the last history entry.
For an empty history the JavaScript original throws a TypeError; that
error path is modelled by none. -/
def getStateKey (a : Agent) : Option String :=
  (a.states.getLast?).map (fun e => e.2)

/-- Agent.setDirection with the consumed Math.random() draw d passed
explicitly: picks DIRECTION[Math.floor(d * 8)] scaled by the speed. -/
def setDirection (d : ℚ) (a : Agent) : Agent :=
  let dir := DIRECTION.getD (⌊d * 8⌋).toNat (0, 0)
  {a with dx := (dir.1 : ℚ) * a.speed, dy := (dir.2 : ℚ) * a.speed}

/-- The default simulation events (used in cluster event lists).  The
source stores the event functions themselves in the lists; they are
identified here by name so that they can live inside the simulation
state. -/
inductive Ev where
  | advanceAgents : Ev
  | moveAgents : Ev
  | calcResults : Ev
  | recordResult : Ev
  | recordResultHeader : Ev
deriving DecidableEq

/-- One cluster (built by Simulation.processOptions, epiagents.js lines
544-565). -/
structure Cluster where
  name : String
  left : ℚ
  top : ℚ
  right : ℚ
  bottom : ℚ
  border : Bool
  borderColor : String
  numAgents : ℕ
  states : Catalog
  beforeEvents : List Ev
  duringEvents : List Ev
  afterEvents : List Ev
deriving DecidableEq

/-- Simulation config (Simulation.processOptions, epiagents.js lines
526-542). -/
structure Config where
  name : Option String
  description : Option String
  width : ℚ
  height : ℚ
  maxArea : ℚ
  interval : ℚ
  agentRadius : ℚ
  movementRandomnessMean : ℚ
  movementRandomnessStdev : ℚ
  elasticCollisions : Bool
  agentSpeed : ℚ
  maxIterations : ℕ
  extraBeforeEvents : List Ev
  extraDuringEvents : List Ev
  extraAfterEvents : List Ev
deriving DecidableEq

/-- SimulationPhase (epiagents.js lines 163-166). -/
inductive SimPhase where
  | PAUSED : SimPhase
  | PLAYING : SimPhase
deriving DecidableEq

/-- EventPhase (epiagents.js lines 169-173). -/
inductive EventPhase where
  | BEFORE : EventPhase
  | DURING : EventPhase
  | AFTER : EventPhase
deriving DecidableEq

/-- One cell of a results row: either a phase marker string or a number. -/
inductive Cell where
  | str : String → Cell
  | num : ℕ → Cell
deriving DecidableEq

/-- The simulation state (class Simulation).  The collisions field is
incremented by detectCollision; the source never initialises it (the
first ++sim.collisions acts on undefined), it is tracked here from 0 and
no verified statement relies on it.  rngIdx is the number of Math.random()
draws consumed so far. -/
structure Sim where
  config : Config
  clusters : List Cluster
  state : SimPhase
  timer : Option Unit
  agentCounter : ℕ
  agents : List Agent
  counters : List (String × ℕ)
  eventPhase : EventPhase
  results : List (List Cell)
  iteration : ℕ
  collisions : ℕ
  rngIdx : ℕ
deriving DecidableEq

/-- Cluster placeholder for an out-of-range cluster index; a JavaScript
agent always holds a live cluster reference, so verified statements keep
every clusterIdx in range. -/
def emptyCluster : Cluster :=
  {name := emptyStr, left := 0, top := 0, right := 0, bottom := 0,
   border := true, borderColor := emptyStr, numAgents := 0, states := [],
   beforeEvents := [], duringEvents := [], afterEvents := []}

/-- The cluster referenced by agent.cluster. -/
def clusterOf (s : Sim) (a : Agent) : Cluster :=
  (s.clusters.get? a.clusterIdx).getD emptyCluster

/-- Agent.getInfectiousness via getState(): the infectiousness of the
current compartment record in the owning cluster catalog. -/
def getInfectiousness (s : Sim) (a : Agent) : ℚ :=
  match getStateKey a with
  | none => 0
  | some st =>
    match findState (clusterOf s a).states st with
    | some d => d.infectiousness
    | none => 0

/-- Whether the current compartment record is marked infected. -/
def stateInfectedB (cat : Catalog) (k : String) : Bool :=
  match findState cat k with
  | some d => d.infected
  | none => false

/-- Replace the agent at one index, a no-op when out of range. -/
def updAgent (ags : List Agent) (i : ℕ) (f : Agent → Agent) : List Agent :=
  match ags.get? i with
  | some a => ags.set i (f a)
  | none => ags

/-- distanceSquared (epiagents.js lines 300-306). -/
def distanceSquared (x1 x2 y1 y2 : ℚ) : ℚ :=
  (x1 - x2) * (x1 - x2) + (y1 - y2) * (y1 - y2)

/-- First test of detectCollision: current positions against the sum of
radii (this test also bumps sim.collisions in the source). -/
def collide1 (a b : Agent) : Bool :=
  decide (distanceSquared a.x b.x a.y b.y <
    (a.radius + b.radius) * (a.radius + b.radius))

/-- Second test of detectCollision: projected next positions. -/
def collide2 (a b : Agent) : Bool :=
  decide (distanceSquared (a.x + a.dx) (b.x + b.dx) (a.y + a.dy) (b.y + b.dy) <
    (a.radius + b.radius) * (a.radius + b.radius))

/-- detectCollision as a pure predicate (epiagents.js lines 308-326). -/
def detectCollision (a b : Agent) : Bool :=
  collide1 a b || collide2 a b

/-- makeInfection (epiagents.js lines 328-333): one Bernoulli draw
against risk; on success append the exposed compartment with the current
iteration marker to the target history and bump the cumulative
transmission counter. -/
def makeInfection (r : ℕ → ℚ) (s : Sim) (toIdx : ℕ) (risk : ℚ) : Sim :=
  if r s.rngIdx < risk then
    {s with
      agents := updAgent s.agents toIdx (fun t =>
        {t with states := t.states ++ [(Marker.it s.iteration, sINFECTED_EXPOSED)]}),
      counters := cIncr kTotalSimulationInfections s.counters,
      rngIdx := s.rngIdx + 1}
  else
    {s with rngIdx := s.rngIdx + 1}

/-- Agent.infectAgent (epiagents.js lines 455-464) between the agents at
indices i and b. -/
def infectAgent (r : ℕ → ℚ) (s : Sim) (i b : ℕ) : Sim :=
  match s.agents.get? i, s.agents.get? b with
  | some a, some o =>
    let thisInf := getInfectiousness s a
    let agentInf := getInfectiousness s o
    if getStateKey a = some sSUSCEPTIBLE ∧ 0 < agentInf then
      makeInfection r s i agentInf
    else if getStateKey o = some sSUSCEPTIBLE ∧ 0 < thisInf then
      makeInfection r s b thisInf
    else s
  | _, _ => s

/-- The elastic velocity swap inside Agent.detectInfections: when
elastic collisions are on and this agent has the lower id, the two
agents of the colliding pair swap velocity vectors. -/
def detectSwap (s : Sim) (i b : ℕ) (a o : Agent) : Sim :=
  if s.config.elasticCollisions ∧ a.id < o.id then
    let swapped : List Agent :=
      (s.agents.set i ({a with dx := o.dx, dy := o.dy})).set b
        ({o with dx := a.dx, dy := a.dy})
    {s with agents := swapped}
  else s

/-- One step of the Agent.detectInfections loop (epiagents.js lines
466-483) for the agent at index i against the agent at index b: skip on
equal ids, count a current-position collision, on any collision swap the
velocities when elastic collisions are on and this agent has the lower
id, then attempt transmission. -/
def detectStep (r : ℕ → ℚ) (i : ℕ) (s : Sim) (b : ℕ) : Sim :=
  match s.agents.get? i, s.agents.get? b with
  | some a, some o =>
    if o.id ≠ a.id then
      let s1 := if collide1 a o then {s with collisions := s.collisions + 1} else s
      if detectCollision a o then
        infectAgent r (detectSwap s1 i b a o) i b
      else s1
    else s
  | _, _ => s

/-- Agent.detectInfections for the agent at index i: the loop over every
agent of the flat simulation list, reading the live array at each step. -/
def detectInfections (r : ℕ → ℚ) (s : Sim) (i : ℕ) : Sim :=
  (List.range s.agents.length).foldl (detectStep r i) s

/-- Agent.correctPosition (epiagents.js lines 485-494). -/
def correctPosition (cl : Cluster) (a : Agent) : Agent :=
  let a1 :=
    if a.x - a.radius < cl.left then {a with x := cl.left + a.radius}
    else if cl.right < a.x + a.radius then {a with x := cl.right - a.radius}
    else a
  if a1.y - a1.radius < cl.top then {a1 with y := cl.top + a1.radius}
  else if cl.bottom < a1.y + a1.radius then {a1 with y := cl.bottom - a1.radius}
  else a1

/-- The movement-randomness step at the top of Agent.move: one draw is
compared against this.movement_randomness (an undefined property, see
Agent), and on success a second draw picks a new direction. -/
def moveRedirect (r : ℕ → ℚ) (i : ℕ) (a : Agent) : Agent × ℕ :=
  if jsLtOpt (r i) a.movement_randomness then (setDirection (r (i + 1)) a, i + 2)
  else (a, i + 1)

/-- The billiard reflection inside Agent.move: each velocity component
flips independently when the projected next position would cross the
cluster box. -/
def reflectAgent (cl : Cluster) (a1 : Agent) : Agent :=
  let a2 := {a1 with dx :=
    if cl.right - a1.radius ≤ a1.x + a1.dx ∨ a1.x + a1.dx ≤ cl.left + a1.radius
    then -a1.dx else a1.dx}
  {a2 with dy :=
    if cl.bottom - a2.radius ≤ a2.y + a2.dy ∨ a2.y + a2.dy ≤ cl.top + a2.radius
    then -a2.dy else a2.dy}

/-- The tail of Agent.move: apply the (possibly swapped) velocity to the
position and clamp back inside the cluster box. -/
def movePost (s1 : Sim) (i : ℕ) : Sim :=
  match s1.agents.get? i with
  | none => s1
  | some a4 =>
    let a5 : Agent :=
      correctPosition (clusterOf s1 a4) ({a4 with x := a4.x + a4.dx, y := a4.y + a4.dy})
    {s1 with agents := s1.agents.set i a5}

/-- Agent.move (epiagents.js lines 496-519) for the agent at index i:
dead agents park at (-1000, -1000); otherwise the redirect draw, boundary
reflection of each velocity component, detectInfections, then the
position update and clamp. -/
def move (r : ℕ → ℚ) (s : Sim) (i : ℕ) : Sim :=
  match s.agents.get? i with
  | none => s
  | some a =>
    if getStateKey a = some sDEAD then
      {s with agents := s.agents.set i {a with x := -1000, y := -1000}}
    else
      let rd := moveRedirect r s.rngIdx a
      let a3 := reflectAgent (clusterOf s rd.1) rd.1
      movePost (detectInfections r {s with agents := s.agents.set i a3, rngIdx := rd.2} i) i

/-- One step of the eventMoveAgents loop: the agent at index i moves
when its current compartment is not DEAD. -/
def moveStep (r : ℕ → ℚ) (t : Sim) (i : ℕ) : Sim :=
  match t.agents.get? i with
  | some a => if getStateKey a ≠ some sDEAD then move r t i else t
  | none => t

/-- eventMoveAgents (epiagents.js lines 335-340): every agent whose
current compartment is not DEAD moves, in list order. -/
def eventMoveAgents (r : ℕ → ℚ) (s : Sim) : Sim :=
  (List.range s.agents.length).foldl (moveStep r) s

/-- Inner loop of eventAdvanceAgents over the ordered outgoing
transitions of one catalog entry: one draw per edge, and on the first
success append the destination with the current iteration marker and
break. -/
def advanceInner (r : ℕ → ℚ) (iter : ℕ) (edges : List (String × ℚ))
    (a : Agent) (i : ℕ) : Agent × ℕ :=
  match edges with
  | [] => (a, i)
  | e :: rest =>
    if r i < e.2 then
      ({a with states := a.states ++ [(Marker.it iter, e.1)]}, i + 1)
    else advanceInner r iter rest a (i + 1)

/-- Outer loop of eventAdvanceAgents over the whole catalog in insertion
order: an entry whose name equals the agent current compartment runs the
inner loop; the scan then continues with the possibly already-advanced
agent (the source break leaves only the inner loop). -/
def advanceOuter (r : ℕ → ℚ) (iter : ℕ) (cat : Catalog)
    (a : Agent) (i : ℕ) : Agent × ℕ :=
  match cat with
  | [] => (a, i)
  | e :: rest =>
    if getStateKey a = some e.1 then
      let p := advanceInner r iter e.2.nextStateProb a i
      advanceOuter r iter rest p.1 p.2
    else advanceOuter r iter rest a i

/-- eventAdvanceAgents (epiagents.js lines 342-359).  The source mutates
each agent in place while iterating sim.agents; since the transition step
of one agent reads only that agent, its cluster catalog and the shared
random stream, rebuilding the list element by element with the stream
index threaded in the same order is equivalent. -/
def advanceAcc (r : ℕ → ℚ) (s : Sim) (acc : List Agent × ℕ) (a : Agent) :
    List Agent × ℕ :=
  let q := advanceOuter r s.iteration (clusterOf s a).states a acc.2
  (acc.1 ++ [q.1], q.2)

/-- The loop of eventAdvanceAgents over the agent list. -/
def eventAdvanceAgents (r : ℕ → ℚ) (s : Sim) : Sim :=
  let p := s.agents.foldl (advanceAcc r s) ([], s.rngIdx)
  {s with agents := p.1, rngIdx := p.2}

/-- The reset pass at the top of eventCalcResults: every counter whose
name does not begin with the six characters total_ is zeroed. -/
def resetNonTotal (cs : List (String × ℕ)) : List (String × ℕ) :=
  cs.map (fun e => if e.1.take 6 ≠ totalFront then (e.1, 0) else e)

/-- One agent of the eventCalcResults scan: bump the counter named after
the current compartment when such a counter exists, bump infections when
the compartment is marked infected, bump alive when the compartment is
not DEAD.  A none compartment corresponds to the TypeError the source
would throw on an empty history; verified scenarios keep histories
non-empty. -/
def calcStep (s : Sim) (cs : List (String × ℕ)) (a : Agent) : List (String × ℕ) :=
  match getStateKey a with
  | none => cs
  | some st =>
    let cs1 := if (cLookup st cs).isSome then cIncr st cs else cs
    let cs2 := if stateInfectedB (clusterOf s a).states st then cIncr kInfections cs1 else cs1
    if st ≠ sDEAD then cIncr kAlive cs2 else cs2

/-- eventCalcResults (epiagents.js lines 361-377): reset every
non-total_ counter, then one full scan over all agents. -/
def eventCalcResults (s : Sim) : Sim :=
  {s with counters := s.agents.foldl (calcStep s) (resetNonTotal s.counters)}

/-- eventRecordResultHeader (epiagents.js lines 381-385). -/
def eventRecordResultHeader (s : Sim) : Sim :=
  {s with results := s.results ++
    [Cell.str sHash :: s.counters.map (fun e => Cell.str e.1)]}

/-- eventRecordResult (epiagents.js lines 389-401): a row holding the
phase marker followed by every counter value in order. -/
def eventRecordResult (s : Sim) : Sim :=
  let head : Cell :=
    match s.eventPhase with
    | EventPhase.DURING => Cell.num s.iteration
    | EventPhase.BEFORE => Cell.str sS
    | EventPhase.AFTER => Cell.str sE
  {s with results := s.results ++ [head :: s.counters.map (fun e => Cell.num e.2)]}

/-- Dispatch one named event. -/
def runEvent (r : ℕ → ℚ) (e : Ev) (s : Sim) : Sim :=
  match e with
  | Ev.advanceAgents => eventAdvanceAgents r s
  | Ev.moveAgents => eventMoveAgents r s
  | Ev.calcResults => eventCalcResults s
  | Ev.recordResult => eventRecordResult s
  | Ev.recordResultHeader => eventRecordResultHeader s

/-- Simulation.runEvents. -/
def runEvents (r : ℕ → ℚ) (s : Sim) (evs : List Ev) : Sim :=
  evs.foldl (fun t e => runEvent r e t) s

/-- Simulation.beforeIteration (epiagents.js lines 739-743). -/
def beforeIteration (r : ℕ → ℚ) (s : Sim) : Sim :=
  let s1 := {s with eventPhase := EventPhase.BEFORE}
  s1.clusters.foldl (fun t c => runEvents r t c.beforeEvents) s1

/-- Simulation.afterIteration (epiagents.js lines 756-760). -/
def afterIteration (r : ℕ → ℚ) (s : Sim) : Sim :=
  let s1 := {s with eventPhase := EventPhase.AFTER}
  s1.clusters.foldl (fun t c => runEvents r t c.afterEvents) s1

/-- Simulation.pause (epiagents.js lines 782-788): idempotent return to
PAUSED, cancelling the repeating schedule. -/
def pause (s : Sim) : Sim :=
  if s.state ≠ SimPhase.PAUSED then
    {s with state := SimPhase.PAUSED, timer := none}
  else s

/-- Simulation.stop (epiagents.js lines 790-793): pause then run the
AFTER phase. -/
def stop (r : ℕ → ℚ) (s : Sim) : Sim :=
  afterIteration r (pause s)

/-- Simulation.oneIteration (epiagents.js lines 745-754): run every
cluster during-event list, advance the iteration counter, and auto-stop
when a positive maximum iteration count divides it. -/
def oneIteration (r : ℕ → ℚ) (s : Sim) : Sim :=
  let s1 : Sim := {s with eventPhase := EventPhase.DURING}
  let s2 : Sim := s1.clusters.foldl (fun t c => runEvents r t c.duringEvents) s1
  let s3 : Sim := {s2 with iteration := s2.iteration + 1}
  if 0 < s3.config.maxIterations then
    if s3.iteration % s3.config.maxIterations = 0 then stop r s3 else s3
  else s3

/-- Simulation.step (epiagents.js lines 762-768). -/
def step (r : ℕ → ℚ) (s : Sim) : Sim :=
  if s.state ≠ SimPhase.PLAYING then
    let s1 := if s.iteration = 0 then beforeIteration r s else s
    oneIteration r s1
  else s

/-- Simulation.play (epiagents.js lines 770-780) without the repeating
timer callback itself, which re-enters oneIteration between turns. -/
def play (r : ℕ → ℚ) (s : Sim) : Sim :=
  if s.state ≠ SimPhase.PLAYING then
    let s1 : Sim := {s with state := SimPhase.PLAYING}
    let s2 : Sim := if s1.iteration = 0 then beforeIteration r s1 else s1
    {s2 with timer := some ()}
  else s

/-- Error message of setClusterInitialRatio. -/
def errInitialRatio : String := "Error in setInitialRatio. Unknown state: "

/-- Error message of setClusterStateInfectiousness. -/
def errInfectiousness : String := "Error in setInfectiousness. Unknown state: "

/-- Error message of the from-state guard of setClusterTransition. -/
def errTransitionFrom : String := "Error in setClusterTransition. Unknown from state: "

/-- Error message of the to-state guard of setClusterTransition. -/
def errTransitionTo : String := "Error in setClusterTransitions. Unknown to state: "

/-- The TypeError JavaScript raises when reading nextStateProb of
undefined (cluster.states[from_state] for an unknown from-state). -/
def errTypeError : String := "TypeError: cluster.states[from_state] is undefined"

/-- Simulation.setClusterInitialRatio (epiagents.js lines 621-627),
acting on the cluster catalog: fail fast on an unknown compartment name,
otherwise update its initialRatio in place. -/
def setClusterInitialRatio (cat : Catalog) (state : String) (v : ℚ) :
    Except String Catalog :=
  if hasState cat state then
    Except.ok (cat.map (fun e =>
      if e.1 = state then (e.1, {e.2 with initialRatio := v}) else e))
  else
    Except.error (errInitialRatio ++ state)

/-- Simulation.setClusterStateInfectiousness (epiagents.js lines
654-660). -/
def setClusterStateInfectiousness (cat : Catalog) (state : String) (v : ℚ) :
    Except String Catalog :=
  if hasState cat state then
    Except.ok (cat.map (fun e =>
      if e.1 = state then (e.1, {e.2 with infectiousness := v}) else e))
  else
    Except.error (errInfectiousness ++ state)

/-- The key actually tested by the guard of setClusterTransition.  The
source writes (!from_state in cluster.states), which JavaScript parses as
((!from_state) in cluster.states): the boolean !from_state is coerced to
the property key "false" (or "true" when the string is empty and hence
falsy), so the guard checks membership of that key instead of the given
name. -/
def jsBangKey (state : String) : String :=
  if state = emptyStr then sTrue else sFalse

/-- JavaScript property assignment obj[k] = v on an insertion-ordered
object: overwrite an existing key in place, otherwise append the new key
at the end. -/
def setEdge (edges : List (String × ℚ)) (k : String) (v : ℚ) :
    List (String × ℚ) :=
  if edges.any (fun e => e.1 = k) then
    edges.map (fun e => if e.1 = k then (e.1, v) else e)
  else edges ++ [(k, v)]

/-- Simulation.setClusterTransition (epiagents.js lines 691-701) with the
source guards translated exactly, operator precedence included (see
jsBangKey): neither guard can fire on a real catalog, an unknown
from-state then raises a TypeError at the assignment, and an unknown
to-state is silently added as a new outgoing edge. -/
def setClusterTransition (cat : Catalog) (from_state to_state : String)
    (v : ℚ) : Except String Catalog :=
  if hasState cat (jsBangKey from_state) then
    Except.error (errTransitionFrom ++ from_state)
  else if hasState cat (jsBangKey to_state) then
    Except.error (errTransitionTo ++ to_state)
  else
    match findState cat from_state with
    | none => Except.error errTypeError
    | some d =>
      Except.ok (cat.map (fun e =>
        if e.1 = from_state then
          (e.1, {d with nextStateProb := setEdge d.nextStateProb to_state v})
        else e))

/-- Simulation.clearClusterStateTransitions (epiagents.js lines
713-715). -/
def clearClusterStateTransitions (cat : Catalog) (state : String) : Catalog :=
  cat.map (fun e => if e.1 = state then (e.1, {e.2 with nextStateProb := []}) else e)

/-- JavaScript division, with none modelling the non-finite result of a
zero divisor (0/0 is NaN, x/0 is an infinity; in the verified statements
the divisor-zero case always has a zero numerator). -/
def jsDiv (a b : ℚ) : Option ℚ :=
  if b = 0 then none else some (a / b)

/-- Addition where a non-finite operand contaminates the sum. -/
def addOpt : Option ℚ → Option ℚ → Option ℚ
  | some a, some b => some (a + b)
  | _, _ => none

/-- Total initial-ratio weight of one catalog. -/
def catalogTotal (cat : Catalog) : ℚ :=
  cat.foldl (fun t e => t + e.2.initialRatio) 0

/-- Inner loop of Simulation.calcInitialRatios: walk the catalog in
order, store cumulative + ratio/total into initial_proportion and
accumulate. -/
def calcInitialRatiosGo (total : ℚ) (cum : Option ℚ) : Catalog → Catalog
  | [] => []
  | e :: rest =>
    let p := addOpt cum (jsDiv e.2.initialRatio total)
    (e.1, {e.2 with initial_proportion := p}) :: calcInitialRatiosGo total p rest

/-- Simulation.calcInitialRatios for one cluster catalog (epiagents.js
lines 802-815). -/
def calcInitialRatiosCat (cat : Catalog) : Catalog :=
  calcInitialRatiosGo (catalogTotal cat) (some 0) cat

/-- Simulation.calcInitialRatios over every cluster. -/
def calcInitialRatios (s : Sim) : Sim :=
  {s with clusters := s.clusters.map (fun c =>
    {c with states := calcInitialRatiosCat c.states})}

/-- The catalog walk of Simulation.calcInitialStates for one agent: the
first compartment whose initial_proportion exceeds the draw is chosen
(with its infected flag); a comparison against a non-finite proportion is
false, so a NaN distribution assigns nothing. -/
def assignInitial (cat : Catalog) (d : ℚ) : Option (String × Bool) :=
  match cat with
  | [] => none
  | e :: rest =>
    if jsLtOpt d e.2.initial_proportion then some (e.1, e.2.infected)
    else assignInitial rest d

/-- One agent of Simulation.calcInitialStates (epiagents.js lines
817-833): one draw, append the chosen compartment with the start marker
"S" and count an initial infection when the chosen compartment is marked
infected. -/
def initStep (r : ℕ → ℚ) (t : Sim) (i : ℕ) : Sim :=
  match t.agents.get? i with
  | none => t
  | some a =>
    let d := r t.rngIdx
    let t1 : Sim := {t with rngIdx := t.rngIdx + 1}
    match assignInitial (clusterOf t1 a).states d with
    | none => t1
    | some pr =>
      let ags : List Agent :=
        t1.agents.set i ({a with states := a.states ++ [(Marker.start, pr.1)]})
      let t2 : Sim := {t1 with agents := ags}
      if pr.2 then
        {t2 with counters := cIncr kTotalInitialInfections t2.counters}
      else t2

/-- Simulation.calcInitialStates as the loop of initStep over the index
range. -/
def calcInitialStates (r : ℕ → ℚ) (s : Sim) (lo hi : ℕ) : Sim :=
  (List.range' lo (hi - lo)).foldl (initStep r) s

/-- The Agent constructor (epiagents.js lines 411-438) for a given
cluster: draw a position inside the cluster box (two draws), clamp it,
and draw an initial direction (one draw).  The history starts empty: the
constructor never pushes a compartment.  The constructor also stores a
gaussian sampler in this.movementRandomness; that property is never read
again and the sampler consumes no draws unless called, so it is omitted,
while the distinct property movement_randomness read by Agent.move stays
unassigned (none). -/
def mkAgent (cfg : Config) (id cIdx : ℕ) (cl : Cluster) (r : ℕ → ℚ)
    (i : ℕ) : Agent × ℕ :=
  let x0 := r i * (cl.right - cl.left) + cl.left
  let y0 := r (i + 1) * (cl.bottom - cl.top) + cl.top
  let a0 : Agent :=
    {id := id, radius := cfg.agentRadius, speed := cfg.agentSpeed,
     x := x0, y := y0, dx := 0, dy := 0, states := [], clusterIdx := cIdx,
     movement_randomness := none}
  (setDirection (r (i + 2)) (correctPosition cl a0), i + 3)

/-- Simulation.generateAgents (epiagents.js lines 795-800) for the
cluster at one index: append n new agents with fresh monotonic ids. -/
def generateAgents (r : ℕ → ℚ) (s : Sim) (n cIdx : ℕ) : Sim :=
  (List.range n).foldl
    (fun t _ =>
      match t.clusters.get? cIdx with
      | none => t
      | some cl =>
        let p := mkAgent t.config t.agentCounter cIdx cl r t.rngIdx
        {t with agents := t.agents ++ [p.1],
                agentCounter := t.agentCounter + 1,
                rngIdx := p.2}) s

/-- Simulation.createAgents (epiagents.js lines 835-840). -/
def createAgents (r : ℕ → ℚ) (s : Sim) : Sim :=
  let s1 : Sim := {s with agents := []}
  (List.range s1.clusters.length).foldl
    (fun t ci =>
      match t.clusters.get? ci with
      | none => t
      | some cl => generateAgents r t cl.numAgents ci) s1

/-- Simulation.removeAgents (epiagents.js lines 842-847): pop n agents
off the tail of the flat list. -/
def removeAgents (s : Sim) (n : ℕ) : Sim :=
  {s with agents := s.agents.take (s.agents.length - n)}

/-- Simulation.initialize (epiagents.js lines 849-854). -/
def simInit (r : ℕ → ℚ) (s : Sim) : Sim :=
  let s1 : Sim := createAgents r s
  let s2 : Sim := calcInitialRatios s1
  let s3 : Sim := calcInitialStates r s2 0 s2.agents.length
  eventCalcResults s3

/-- Construction options (the argument of Simulation.processOptions),
with none for an absent property.  The per-cluster specification list of
the source (merged over the default cluster, epiagents.js lines 567-574)
is not modelled: no verified statement concerns multi-cluster option
merging. -/
structure Options where
  name : Option String := none
  description : Option String := none
  width : Option ℚ := none
  height : Option ℚ := none
  maxArea : Option ℚ := none
  interval : Option ℚ := none
  agentRadius : Option ℚ := none
  movementRandomnessMean : Option ℚ := none
  movementRandomnessStdev : Option ℚ := none
  elasticCollisions : Option Bool := none
  agents_speed : Option ℚ := none
  maxIterations : Option ℕ := none
  numAgents : Option ℕ := none
  simulationStates : Option Catalog := none
  beforeEvents : Option (List Ev) := none
  duringEvents : Option (List Ev) := none
  afterEvents : Option (List Ev) := none
  extraBeforeEvents : Option (List Ev) := none
  extraDuringEvents : Option (List Ev) := none
  extraAfterEvents : Option (List Ev) := none
  eventPhase : Option EventPhase := none
  agentCounter : Option ℕ := none
deriving DecidableEq

/-- JavaScript x || d for a numeric option: an absent property and the
falsy number 0 both fall back to the default. -/
def jsOrQ (x : Option ℚ) (d : ℚ) : ℚ :=
  match x with
  | some v => if v = 0 then d else v
  | none => d

/-- JavaScript x || d for a natural-number option. -/
def jsOrN (x : Option ℕ) (d : ℕ) : ℕ :=
  match x with
  | some v => if v = 0 then d else v
  | none => d

/-- JavaScript x || d for a boolean option: false is falsy, so the
expression options.elasticCollisions || true can never produce false. -/
def jsOrB (x : Option Bool) (d : Bool) : Bool :=
  match x with
  | some true => true
  | _ => d

/-- JavaScript x || d for an array-valued option: arrays are always
truthy, even when empty. -/
def jsOrL (x : Option (List Ev)) (d : List Ev) : List Ev :=
  match x with
  | some l => l
  | none => d

/-- The ifElse helper (epiagents.js lines 403-407): fall back to the
default only when the property is undefined. -/
def ifElse (x : Option ℚ) (d : ℚ) : ℚ :=
  x.getD d

/-- Simulation.processOptions plus the constructor (epiagents.js lines
524-619): build the config with JavaScript || defaults, the single
default cluster with the default event pipelines, and the counter table
(compulsory counters first, then one counter per compartment of the
default catalog, print flags dropped as pure UI). -/
def processOptions (o : Options) : Sim :=
  let width := jsOrQ o.width 320
  let height := jsOrQ o.height 320
  let cfg : Config :=
    {name := o.name, description := o.description,
     width := width, height := height,
     maxArea := jsOrQ o.maxArea (width * height),
     interval := jsOrQ o.interval 0,
     agentRadius := jsOrQ o.agentRadius 3,
     movementRandomnessMean := jsOrQ o.movementRandomnessMean 0,
     movementRandomnessStdev := jsOrQ o.movementRandomnessStdev 0,
     elasticCollisions := jsOrB o.elasticCollisions true,
     agentSpeed := ifElse o.agents_speed 1,
     maxIterations := jsOrN o.maxIterations 0,
     extraBeforeEvents := jsOrL o.extraBeforeEvents [],
     extraDuringEvents := jsOrL o.extraDuringEvents [],
     extraAfterEvents := jsOrL o.extraAfterEvents []}
  let defaultCluster : Cluster :=
    {name := "default", left := 0, top := 0, right := cfg.width,
     bottom := cfg.height, border := true, borderColor := "black",
     numAgents := jsOrN o.numAgents 0,
     states := (o.simulationStates).getD SimulationStates,
     beforeEvents := jsOrL o.beforeEvents ([] ++ cfg.extraBeforeEvents),
     duringEvents := jsOrL o.duringEvents
       ([Ev.advanceAgents, Ev.moveAgents, Ev.calcResults, Ev.recordResult] ++
        cfg.extraDuringEvents),
     afterEvents := jsOrL o.afterEvents
       ([Ev.calcResults, Ev.recordResult] ++ cfg.extraAfterEvents)}
  let compulsory : List (String × ℕ) :=
    [(kAlive, 0), (kTotalInitialInfections, 0),
     (kTotalSimulationInfections, 0), (kInfections, 0)]
  let userCounters : List (String × ℕ) :=
    SimulationStates.map (fun e => (e.1, 0))
  {config := cfg,
   clusters := [defaultCluster],
   state := SimPhase.PAUSED,
   timer := none,
   agentCounter := jsOrN o.agentCounter 0,
   agents := [],
   counters := compulsory ++ userCounters,
   eventPhase := (o.eventPhase).getD EventPhase.BEFORE,
   results := [],
   iteration := 0,
   collisions := 0,
   rngIdx := 0}

/-- A compartment name absent from every catalog, used to probe the
unknown-name error paths. -/
def sNOSUCH : String := "NO_SUCH_STATE"

/-- Position clamping never touches the movement-randomness property. -/
theorem correctPosition_movement (cl : Cluster) (a : Agent) :
    (correctPosition cl a).movement_randomness = a.movement_randomness := by
  simp only [correctPosition]
  split_ifs <;> rfl

/-- Unfolding of cIncr on a cons cell. -/
theorem cIncr_cons (j : String) (e : String × ℕ) (t : List (String × ℕ)) :
    cIncr j (e :: t) = (if e.1 = j then (e.1, e.2 + 1) else e) :: cIncr j t := rfl

/-- Looking a counter up after the increment of a possibly different
counter. -/
theorem cLookup_cIncr (k j : String) (cs : List (String × ℕ)) :
    cLookup k (cIncr j cs) =
      if k = j then (cLookup k cs).map (fun v => v + 1) else cLookup k cs := by
  induction cs with
  | nil => simp [cLookup, cIncr]
  | cons e t ih =>
    rw [cIncr_cons]
    by_cases hj : e.1 = j
    · by_cases hk : e.1 = k
      · have hkj : k = j := by rw [← hk, hj]
        simp [cLookup, hj, hk, hkj]
      · have hkj : ¬ k = j := fun h => hk (by rw [hj, ← h])
        have hjk : ¬ j = k := fun h => hkj h.symm
        simp [cLookup, hj, hk, hkj, hjk, ih]
    · by_cases hk : e.1 = k
      · have hkj : ¬ k = j := fun h => hj (by rw [hk, h])
        simp [cLookup, hj, hk, hkj]
      · simp [cLookup, hj, hk, ih]

/-- Direction resampling never touches the movement-randomness
property. -/
theorem setDirection_movement (d : ℚ) (a : Agent) :
    (setDirection d a).movement_randomness = a.movement_randomness := rfl

def AgentEvolved (a b : Agent) : Prop :=
  a.clusterIdx = b.clusterIdx ∧
  (∃ t, b.states = a.states ++ t ∧ ∀ e ∈ t, e.2 = sINFECTED_EXPOSED) ∧
  (getStateKey a = some sDEAD → b.x = a.x ∧ b.y = a.y ∧ b.states = a.states)

theorem agentEvolved_refl (a : Agent) : AgentEvolved a a :=
  ⟨rfl, ⟨[], by simp, by simp⟩, fun _ => ⟨rfl, rfl, rfl⟩⟩

theorem agentEvolved_trans {a b c : Agent}
    (h1 : AgentEvolved a b) (h2 : AgentEvolved b c) : AgentEvolved a c := by
  obtain ⟨hc1, ⟨t1, ht1, he1⟩, hd1⟩ := h1
  obtain ⟨hc2, ⟨t2, ht2, he2⟩, hd2⟩ := h2
  refine ⟨hc1.trans hc2, ⟨t1 ++ t2, ?_, ?_⟩, ?_⟩
  · rw [ht2, ht1, List.append_assoc]
  · intro e he
    rcases List.mem_append.mp he with h | h
    · exact he1 e h
    · exact he2 e h
  · intro hdead
    obtain ⟨hx1, hy1, hs1⟩ := hd1 hdead
    have hdead2 : getStateKey b = some sDEAD := by
      unfold getStateKey at *
      rw [hs1]
      exact hdead
    obtain ⟨hx2, hy2, hs2⟩ := hd2 hdead2
    exact ⟨hx2.trans hx1, hy2.trans hy1, hs2.trans hs1⟩

theorem agentEvolved_key {a b : Agent} (h : AgentEvolved a b) :
    getStateKey b = getStateKey a ∨ getStateKey b = some sINFECTED_EXPOSED := by
  obtain ⟨-, ⟨t, ht, he⟩, -⟩ := h
  cases hte : t with
  | nil =>
    left
    unfold getStateKey
    rw [ht, hte, List.append_nil]
  | cons x xs =>
    right
    have hlast : (x :: xs).getLast? = some ((x :: xs).getLast (by simp)) :=
      List.getLast?_eq_getLast_of_ne_nil (by simp)
    have hmem : (x :: xs).getLast (by simp) ∈ (x :: xs) := List.getLast_mem _
    unfold getStateKey
    rw [ht, hte, List.getLast?_append_of_ne_nil _ (by simp), hlast]
    have hin : (x :: xs).getLast (by simp) ∈ t := hte ▸ hmem
    simp [he _ hin]

def Evolves (l l2 : List Agent) : Prop :=
  l2.length = l.length ∧
  ∀ j a, l.get? j = some a → ∃ b, l2.get? j = some b ∧ AgentEvolved a b

theorem evolves_refl (l : List Agent) : Evolves l l :=
  ⟨rfl, fun _ a h => ⟨a, h, agentEvolved_refl a⟩⟩

theorem evolves_trans {l1 l2 l3 : List Agent}
    (h1 : Evolves l1 l2) (h2 : Evolves l2 l3) : Evolves l1 l3 := by
  refine ⟨h2.1.trans h1.1, fun j a ha => ?_⟩
  obtain ⟨b, hb, hab⟩ := h1.2 j a ha
  obtain ⟨c, hc, hbc⟩ := h2.2 j b hb
  exact ⟨c, hc, agentEvolved_trans hab hbc⟩

theorem evolves_set {l : List Agent} {i : ℕ} {a b : Agent}
    (h : l.get? i = some a) (hab : AgentEvolved a b) :
    Evolves l (l.set i b) := by
  refine ⟨List.length_set l i b ▸ rfl, fun j x hx => ?_⟩
  by_cases hij : i = j
  · subst hij
    rw [h] at hx
    injection hx with hx
    subst hx
    refine ⟨b, ?_, hab⟩
    rw [List.get?_set_eq]
    rw [h]
    rfl
  · exact ⟨x, by rw [List.get?_set_ne _ _ hij]; exact hx, agentEvolved_refl x⟩


def SimEvolves (s s2 : Sim) : Prop :=
  s2.clusters = s.clusters ∧
  (∀ k, k ≠ kTotalSimulationInfections → cLookup k s2.counters = cLookup k s.counters) ∧
  Evolves s.agents s2.agents

theorem simEvolves_refl (s : Sim) : SimEvolves s s :=
  ⟨rfl, fun _ _ => rfl, evolves_refl _⟩

theorem simEvolves_trans {s1 s2 s3 : Sim}
    (h1 : SimEvolves s1 s2) (h2 : SimEvolves s2 s3) : SimEvolves s1 s3 :=
  ⟨h2.1.trans h1.1, fun k hk => (h2.2.1 k hk).trans (h1.2.1 k hk),
   evolves_trans h1.2.2 h2.2.2⟩

theorem simEvolves_makeInfection (r : ℕ → ℚ) (s : Sim) (toIdx : ℕ) (risk : ℚ)
    (hsafe : ∀ a, s.agents.get? toIdx = some a → getStateKey a ≠ some sDEAD) :
    SimEvolves s (makeInfection r s toIdx risk) := by
  unfold makeInfection
  split_ifs with hr
  · refine ⟨rfl, ?_, ?_⟩
    · intro k hk
      show cLookup k (cIncr kTotalSimulationInfections s.counters) = _
      rw [cLookup_cIncr, if_neg hk]
    · show Evolves s.agents (updAgent s.agents toIdx _)
      unfold updAgent
      cases hg : s.agents.get? toIdx with
      | none => exact evolves_refl _
      | some a =>
        apply evolves_set hg
        refine ⟨rfl, ⟨[(Marker.it s.iteration, sINFECTED_EXPOSED)], rfl, by simp⟩, ?_⟩
        intro hdead
        exact absurd hdead (hsafe a hg)
  · exact simEvolves_refl s

theorem simEvolves_infectAgent (r : ℕ → ℚ) (s : Sim) (i b : ℕ) :
    SimEvolves s (infectAgent r s i b) := by
  unfold infectAgent
  cases hga : s.agents.get? i with
  | none => exact simEvolves_refl s
  | some a =>
    cases hgb : s.agents.get? b with
    | none => exact simEvolves_refl s
    | some o =>
      dsimp only
      split_ifs with h1 h2
      · apply simEvolves_makeInfection
        intro x hx hdead
        rw [hga] at hx
        injection hx with hx
        subst hx
        exact absurd (h1.1.symm.trans hdead) (by decide)
      · apply simEvolves_makeInfection
        intro x hx hdead
        rw [hgb] at hx
        injection hx with hx
        subst hx
        exact absurd (h2.1.symm.trans hdead) (by decide)
      · exact simEvolves_refl s

theorem simEvolves_detectSwap (s : Sim) (i b : ℕ) (a o : Agent)
    (hga : s.agents.get? i = some a) (hgb : s.agents.get? b = some o)
    (hib : i ≠ b) :
    SimEvolves s (detectSwap s i b a o) := by
  unfold detectSwap
  split_ifs with hc
  · refine ⟨rfl, fun _ _ => rfl, ?_⟩
    show Evolves s.agents ((s.agents.set i _).set b _)
    apply evolves_trans
      (show Evolves s.agents (s.agents.set i ({a with dx := o.dx, dy := o.dy}))
        from evolves_set hga ⟨rfl, ⟨[], by simp, by simp⟩, fun _ => ⟨rfl, rfl, rfl⟩⟩)
    · apply evolves_set
      · rw [List.get?_set_ne _ _ hib]
        exact hgb
      · exact ⟨rfl, ⟨[], by simp, by simp⟩, fun _ => ⟨rfl, rfl, rfl⟩⟩
  · exact simEvolves_refl s

theorem simEvolves_detectCore (r : ℕ → ℚ) (i b : ℕ) (s1 : Sim) (a o : Agent)
    (hga : s1.agents.get? i = some a) (hgb : s1.agents.get? b = some o)
    (hib : i ≠ b) :
    SimEvolves s1
      (if detectCollision a o = true then infectAgent r (detectSwap s1 i b a o) i b
       else s1) := by
  split_ifs with hcol
  · exact simEvolves_trans (simEvolves_detectSwap s1 i b a o hga hgb hib)
      (simEvolves_infectAgent r (detectSwap s1 i b a o) i b)
  · exact simEvolves_refl s1

theorem simEvolves_detectStep (r : ℕ → ℚ) (i : ℕ) (s : Sim) (b : ℕ) :
    SimEvolves s (detectStep r i s b) := by
  unfold detectStep
  cases hga : s.agents.get? i with
  | none => exact simEvolves_refl s
  | some a =>
    cases hgb : s.agents.get? b with
    | none => exact simEvolves_refl s
    | some o =>
      dsimp only
      by_cases hid : o.id ≠ a.id
      · rw [if_pos hid]
        have hib : i ≠ b := by
          intro he
          subst he
          rw [hga] at hgb
          injection hgb with hgb
          exact hid (by rw [hgb])
        by_cases hc1 : collide1 a o = true
        · rw [if_pos hc1]
          refine simEvolves_trans
            (show SimEvolves s ({s with collisions := s.collisions + 1} : Sim)
              from ⟨rfl, fun _ _ => rfl, evolves_refl _⟩) ?_
          exact simEvolves_detectCore r i b _ a o hga hgb hib
        · rw [if_neg hc1]
          exact simEvolves_detectCore r i b s a o hga hgb hib
      · rw [if_neg hid]
        exact simEvolves_refl s

theorem simEvolves_detectInfections (r : ℕ → ℚ) (s : Sim) (i : ℕ) :
    SimEvolves s (detectInfections r s i) := by
  unfold detectInfections
  generalize List.range s.agents.length = idxs
  induction idxs generalizing s with
  | nil => exact simEvolves_refl s
  | cons b rest ih =>
    rw [List.foldl_cons]
    exact simEvolves_trans (simEvolves_detectStep r i s b) (ih _)


theorem reflectAgent_states (cl : Cluster) (a : Agent) :
    (reflectAgent cl a).states = a.states := rfl

theorem reflectAgent_x (cl : Cluster) (a : Agent) :
    (reflectAgent cl a).x = a.x := rfl

theorem reflectAgent_y (cl : Cluster) (a : Agent) :
    (reflectAgent cl a).y = a.y := rfl

theorem reflectAgent_clusterIdx (cl : Cluster) (a : Agent) :
    (reflectAgent cl a).clusterIdx = a.clusterIdx := rfl

theorem moveRedirect_states (r : ℕ → ℚ) (i : ℕ) (a : Agent) :
    (moveRedirect r i a).1.states = a.states := by
  unfold moveRedirect setDirection; dsimp only; split_ifs <;> rfl

theorem moveRedirect_x (r : ℕ → ℚ) (i : ℕ) (a : Agent) :
    (moveRedirect r i a).1.x = a.x := by
  unfold moveRedirect setDirection; dsimp only; split_ifs <;> rfl

theorem moveRedirect_y (r : ℕ → ℚ) (i : ℕ) (a : Agent) :
    (moveRedirect r i a).1.y = a.y := by
  unfold moveRedirect setDirection; dsimp only; split_ifs <;> rfl

theorem moveRedirect_clusterIdx (r : ℕ → ℚ) (i : ℕ) (a : Agent) :
    (moveRedirect r i a).1.clusterIdx = a.clusterIdx := by
  unfold moveRedirect setDirection; dsimp only; split_ifs <;> rfl

theorem correctPosition_states (cl : Cluster) (a : Agent) :
    (correctPosition cl a).states = a.states := by
  unfold correctPosition; dsimp only; split_ifs <;> rfl

theorem correctPosition_clusterIdx (cl : Cluster) (a : Agent) :
    (correctPosition cl a).clusterIdx = a.clusterIdx := by
  unfold correctPosition; dsimp only; split_ifs <;> rfl

theorem getStateKey_congr {a b : Agent} (h : b.states = a.states) :
    getStateKey b = getStateKey a := by
  unfold getStateKey; rw [h]

theorem simEvolves_movePost (s1 : Sim) (i : ℕ)
    (hsafe : ∀ a, s1.agents.get? i = some a → getStateKey a ≠ some sDEAD) :
    SimEvolves s1 (movePost s1 i) := by
  unfold movePost
  cases hg : s1.agents.get? i with
  | none => exact simEvolves_refl s1
  | some a4 =>
    dsimp only
    refine ⟨rfl, fun _ _ => rfl, ?_⟩
    apply evolves_set hg
    refine ⟨?_, ⟨[], ?_, by simp⟩, ?_⟩
    · rw [correctPosition_clusterIdx]
    · rw [correctPosition_states]
      simp
    · intro hd
      exact absurd hd (hsafe a4 hg)

theorem simEvolves_move (r : ℕ → ℚ) (s : Sim) (i : ℕ)
    (hsafe : ∀ a, s.agents.get? i = some a → getStateKey a ≠ some sDEAD) :
    SimEvolves s (move r s i) := by
  unfold move
  cases hg : s.agents.get? i with
  | none => exact simEvolves_refl s
  | some a =>
    dsimp only
    rw [if_neg (hsafe a hg)]
    set a3 := reflectAgent (clusterOf s (moveRedirect r s.rngIdx a).1)
      (moveRedirect r s.rngIdx a).1 with ha3
    have ha3s : a3.states = a.states := by
      rw [ha3, reflectAgent_states, moveRedirect_states]
    have ha3c : a3.clusterIdx = a.clusterIdx := by
      rw [ha3, reflectAgent_clusterIdx, moveRedirect_clusterIdx]
    set smid : Sim :=
      {s with agents := s.agents.set i a3, rngIdx := (moveRedirect r s.rngIdx a).2}
      with hsmid
    have e1 : SimEvolves s smid := by
      refine ⟨rfl, fun _ _ => rfl, ?_⟩
      show Evolves s.agents (s.agents.set i a3)
      apply evolves_set hg
      refine ⟨ha3c.symm, ⟨[], by rw [ha3s]; simp, by simp⟩, ?_⟩
      intro hd
      exact absurd hd (hsafe a hg)
    have e2 : SimEvolves smid (detectInfections r smid i) :=
      simEvolves_detectInfections r smid i
    have e3 : SimEvolves (detectInfections r smid i)
        (movePost (detectInfections r smid i) i) := by
      apply simEvolves_movePost
      intro a4 h4
      have hmid : smid.agents.get? i = some a3 := by
        show (s.agents.set i a3).get? i = some a3
        rw [List.get?_set_eq, hg]
        rfl
      obtain ⟨b, hb, hab⟩ := e2.2.2.2 i a3 hmid
      rw [h4] at hb
      injection hb with hb
      subst hb
      rcases agentEvolved_key hab with hk | hk
      · rw [hk, getStateKey_congr ha3s]
        exact hsafe a hg
      · rw [hk]
        decide
    exact simEvolves_trans (simEvolves_trans e1 e2) e3

theorem simEvolves_moveStep (r : ℕ → ℚ) (t : Sim) (i : ℕ) :
    SimEvolves t (moveStep r t i) := by
  unfold moveStep
  cases hg : t.agents.get? i with
  | none => exact simEvolves_refl t
  | some a =>
    dsimp only
    split_ifs with hd
    · apply simEvolves_move
      intro x hx
      rw [hg] at hx
      injection hx with hx
      subst hx
      exact hd
    · exact simEvolves_refl t

theorem simEvolves_eventMoveAgents (r : ℕ → ℚ) (s : Sim) :
    SimEvolves s (eventMoveAgents r s) := by
  unfold eventMoveAgents
  generalize List.range s.agents.length = idxs
  induction idxs generalizing s with
  | nil => exact simEvolves_refl s
  | cons i rest ih =>
    rw [List.foldl_cons]
    exact simEvolves_trans (simEvolves_moveStep r s i) (ih _)

theorem advanceInner_shape (r : ℕ → ℚ) (it : ℕ) (edges : List (String × ℚ))
    (a : Agent) : ∀ i, ∃ t,
    (advanceInner r it edges a i).1 = {a with states := a.states ++ t} := by
  induction edges with
  | nil =>
    intro i
    exact ⟨[], by cases a; simp [advanceInner]⟩
  | cons e rest ih =>
    intro i
    unfold advanceInner
    split_ifs with h
    · exact ⟨[(Marker.it it, e.1)], rfl⟩
    · exact ih (i + 1)

theorem advanceOuter_shape (r : ℕ → ℚ) (it : ℕ) (cat : Catalog) :
    ∀ (a : Agent) (i : ℕ), ∃ t,
    (advanceOuter r it cat a i).1 = {a with states := a.states ++ t} := by
  induction cat with
  | nil =>
    intro a i
    exact ⟨[], by cases a; simp [advanceOuter]⟩
  | cons e rest ih =>
    intro a i
    unfold advanceOuter
    split_ifs with h
    · obtain ⟨t1, h1⟩ := advanceInner_shape r it e.2.nextStateProb a i
      obtain ⟨t2, h2⟩ := ih (advanceInner r it e.2.nextStateProb a i).1
        (advanceInner r it e.2.nextStateProb a i).2
      refine ⟨t1 ++ t2, ?_⟩
      rw [h2, h1]
      cases a
      simp
    · exact ih a i

theorem advanceOuter_no_edges (r : ℕ → ℚ) (it : ℕ) (cat : Catalog)
    (a : Agent) (k : String) (hk : getStateKey a = some k)
    (hcat : ∀ e ∈ cat, e.1 = k → e.2.nextStateProb = []) :
    ∀ i, advanceOuter r it cat a i = (a, i) := by
  induction cat with
  | nil => intro i; rfl
  | cons e rest ih =>
    intro i
    unfold advanceOuter
    split_ifs with h
    · have he : e.1 = k := by
        rw [hk] at h
        injection h with h
        exact h.symm
      have hnil : e.2.nextStateProb = [] := hcat e (by simp) he
      rw [hnil]
      exact ih (fun x hx hxk => hcat x (by simp [hx]) hxk) i
    · exact ih (fun x hx hxk => hcat x (by simp [hx]) hxk) i

theorem advanceFold_spec (r : ℕ → ℚ) (s : Sim) :
    ∀ (ags : List Agent) (acc : List Agent × ℕ),
      (ags.foldl (advanceAcc r s) acc).1.length = acc.1.length + ags.length ∧
      (∀ j, j < acc.1.length →
        (ags.foldl (advanceAcc r s) acc).1.get? j = acc.1.get? j) ∧
      (∀ j a, ags.get? j = some a → ∃ i2,
        (ags.foldl (advanceAcc r s) acc).1.get? (acc.1.length + j) =
          some (advanceOuter r s.iteration (clusterOf s a).states a i2).1) := by
  intro ags
  induction ags with
  | nil =>
    intro acc
    refine ⟨by simp, fun j hj => rfl, fun j a hja => ?_⟩
    simp at hja
  | cons a t ih =>
    intro acc
    rw [List.foldl_cons]
    obtain ⟨ihlen, ihpre, ihmain⟩ := ih (advanceAcc r s acc a)
    have hacc : (advanceAcc r s acc a).1 =
        acc.1 ++ [(advanceOuter r s.iteration (clusterOf s a).states a acc.2).1] := rfl
    have hacclen : (advanceAcc r s acc a).1.length = acc.1.length + 1 := by
      rw [hacc]; simp
    refine ⟨?_, ?_, ?_⟩
    · rw [ihlen, hacclen]
      simp [Nat.add_assoc, Nat.add_comm 1 t.length]
    · intro j hj
      rw [ihpre j (by rw [hacclen]; omega), hacc,
        List.get?_append hj]
    · intro j x hjx
      cases j with
      | zero =>
        injection hjx with hjx
        subst hjx
        refine ⟨acc.2, ?_⟩
        rw [Nat.add_zero, ihpre acc.1.length (by rw [hacclen]; omega), hacc,
          List.get?_concat_length]
      | succ j2 =>
        obtain ⟨i2, hmain⟩ := ihmain j2 x (by simpa using hjx)
        refine ⟨i2, ?_⟩
        rw [← hmain, hacclen]
        congr 1
        omega

theorem eventAdvanceAgents_length (r : ℕ → ℚ) (s : Sim) :
    (eventAdvanceAgents r s).agents.length = s.agents.length := by
  show (s.agents.foldl (advanceAcc r s) ([], s.rngIdx)).1.length = _
  rw [(advanceFold_spec r s s.agents ([], s.rngIdx)).1]
  simp

theorem eventAdvanceAgents_get (r : ℕ → ℚ) (s : Sim) (j : ℕ) (a : Agent)
    (h : s.agents.get? j = some a) :
    ∃ i2, (eventAdvanceAgents r s).agents.get? j =
      some (advanceOuter r s.iteration (clusterOf s a).states a i2).1 := by
  have hm := (advanceFold_spec r s s.agents ([], s.rngIdx)).2.2 j a h
  simpa using hm

/-- A paused simulation never reports PLAYING after pause. -/
theorem pause_state (s : Sim) : (pause s).state = SimPhase.PAUSED := by
  unfold pause
  split_ifs with h
  · rfl
  · simpa using not_not.mp (by simpa using h)

/-- pause never touches the results log. -/
theorem pause_results (s : Sim) : (pause s).results = s.results := by
  unfold pause; split_ifs <;> rfl

/-- pause never touches the cluster list. -/
theorem pause_clusters (s : Sim) : (pause s).clusters = s.clusters := by
  unfold pause; split_ifs <;> rfl

/-- stop over a single cluster carrying the default AFTER pipeline is
pause, then one metrics recomputation, then one result row. -/
theorem stop_run (r : ℕ → ℚ) (s : Sim) (c : Cluster)
    (hc : s.clusters = [c])
    (ha : c.afterEvents = [Ev.calcResults, Ev.recordResult]) :
    stop r s =
      eventRecordResult (eventCalcResults
        ({pause s with eventPhase := EventPhase.AFTER})) := by
  unfold stop afterIteration
  rw [pause_clusters, hc]
  simp [ha, runEvents, runEvent, pause_clusters, hc]

/-- In the AFTER phase, recording a result appends exactly one row marked
"E". -/
theorem record_results_after (x : Sim) (hx : x.eventPhase = EventPhase.AFTER) :
    (eventRecordResult x).results =
      x.results ++ [Cell.str sE :: x.counters.map (fun e => Cell.num e.2)] := by
  unfold eventRecordResult
  rw [hx]

/-- The last element of a list extended by one element. -/
theorem getLast?_append_single {α : Type} (l : List α) (x : α) :
    (l ++ [x]).getLast? = some x := by
  simp

/-- Fixed draw stream for runs whose outcome does not depend on the
draws. -/
def rAny : ℕ → ℚ := fun _ => 0

/-- Number of AFTER-phase rows (marker "E") in a results log. -/
def countE (rs : List (List Cell)) : ℕ :=
  rs.countP (fun row => decide (row.head? = some (Cell.str sE)))

/-- A default simulation that auto-stops after its first iteration. -/
def simC5 : Sim := processOptions {maxIterations := some 1}

/-- Claim C5 counterexample: after one step of a one-iteration run the
engine has auto-invoked stop, leaving exactly one AFTER row in the
results log and a paused simulation; calling stop again on this paused,
past-completion simulation runs the whole AFTER phase a second time and
appends a second "E" row - stop does not guard against double-invoking
the AFTER phase. -/
theorem claim5_double_after_counterexample :
    countE (step rAny simC5).results = 1 ∧
    countE (stop rAny (step rAny simC5)).results = 2 ∧
    (step rAny simC5).state = SimPhase.PAUSED := by
  decide

/-- Claim C5 amended: stop performs pause followed by exactly one
AFTER-phase run on EVERY call: it leaves the simulation paused in the
AFTER phase and appends exactly one "E"-marked results row, and a second
stop call, even while already paused past completion, runs the AFTER
phase again, appending one more row. -/
theorem claim5_amended (r : ℕ → ℚ) (s : Sim) (c : Cluster)
    (hc : s.clusters = [c])
    (ha : c.afterEvents = [Ev.calcResults, Ev.recordResult]) :
    (stop r s).state = SimPhase.PAUSED ∧
    (stop r s).eventPhase = EventPhase.AFTER ∧
    (stop r s).results.length = s.results.length + 1 ∧
    ((stop r s).results.getLast?).map (fun row => row.head?) =
      some (some (Cell.str sE)) ∧
    (stop r (stop r s)).results.length = s.results.length + 2 := by
  have h1 := stop_run r s c hc ha
  have hres1 : (stop r s).results =
      s.results ++ [Cell.str sE ::
        (eventCalcResults ({pause s with eventPhase := EventPhase.AFTER})).counters.map
          (fun e => Cell.num e.2)] := by
    rw [h1, record_results_after _ rfl]
    simp [eventCalcResults, pause_results]
  have hstate : (stop r s).state = SimPhase.PAUSED := by
    rw [h1]
    show ({pause s with eventPhase := EventPhase.AFTER} : Sim).state = _
    simp [pause_state]
  have hphase : (stop r s).eventPhase = EventPhase.AFTER := by
    rw [h1]; rfl
  have hcl : (stop r s).clusters = [c] := by
    rw [h1]
    show ({pause s with eventPhase := EventPhase.AFTER} : Sim).clusters = _
    simpa [pause_clusters] using hc
  have h2 := stop_run r (stop r s) c hcl ha
  have hres2 : (stop r (stop r s)).results =
      (stop r s).results ++ [Cell.str sE ::
        (eventCalcResults ({pause (stop r s) with eventPhase := EventPhase.AFTER})).counters.map
          (fun e => Cell.num e.2)] := by
    rw [h2, record_results_after _ rfl]
    simp [eventCalcResults, pause_results]
  refine ⟨hstate, hphase, ?_, ?_, ?_⟩
  · rw [hres1]; simp
  · rw [hres1]; simp [getLast?_append_single]
  · rw [hres2, hres1]; simp

/-- Witness instantiating claim5_amended on the default simulation. -/
theorem claim5_amended_witness :
    (stop rAny (processOptions {})).results.length =
      (processOptions {}).results.length + 1 ∧
    (stop rAny (stop rAny (processOptions {}))).results.length =
      (processOptions {}).results.length + 2 := by
  refine ⟨?_, ?_⟩
  · exact (claim5_amended rAny (processOptions {})
      ((processOptions {}).clusters.getD 0 emptyCluster) rfl rfl).2.2.1
  · exact (claim5_amended rAny (processOptions {})
      ((processOptions {}).clusters.getD 0 emptyCluster) rfl rfl).2.2.2.2

/-- Claim C10: for every construction-options object, including one that
explicitly sets the elastic-collision flag to false, the constructed
simulation has elasticCollisions equal to true: the default expression
options.elasticCollisions || true is truthy for every value of the
option, so velocity swaps on collision are always enabled and the flag
cannot be turned off through the documented configuration interface. -/
theorem claim10_elastic_always_true (o : Options) :
    (processOptions o).config.elasticCollisions = true := by
  rcases h : o.elasticCollisions with _ | b
  · simp [processOptions, jsOrB, h]
  · cases b <;> simp [processOptions, jsOrB, h]

/-- Claim C6 (refuted, code bug): every agent produced by the
constructor, for every configuration including a positive
movement-randomness mean, leaves the property read by the move
re-direction test unassigned, so the Bernoulli re-direction branch is
never taken: moveRedirect consumes the comparison draw and returns the
agent unchanged, whatever the stream yields.  The claimed reachability of
the re-direction branch is therefore false: Agent.move compares against
this.movement_randomness while the constructor assigns
this.movementRandomness (a sampler function), a property-name slip. -/
theorem claim6_redirect_unreachable (cfg : Config) (id cIdx : ℕ)
    (cl : Cluster) (r : ℕ → ℚ) (i : ℕ) (r2 : ℕ → ℚ) (j : ℕ) :
    (mkAgent cfg id cIdx cl r i).1.movement_randomness = none ∧
    moveRedirect r2 j (mkAgent cfg id cIdx cl r i).1 =
      ((mkAgent cfg id cIdx cl r i).1, j + 1) := by
  have hmr : (mkAgent cfg id cIdx cl r i).1.movement_randomness = none := by
    simp [mkAgent, setDirection_movement, correctPosition_movement]
  refine ⟨hmr, ?_⟩
  simp [moveRedirect, jsLtOpt, hmr]

/-- Stream of draws for the claim C1 run: the first draw succeeds against
the SUSCEPTIBLE to VACCINATED probability 0.0025, the second against the
VACCINATED to SUSCEPTIBLE probability 0.0005. -/
def rC1 : ℕ → ℚ := fun n => if n = 0 then mkRat 1 1000 else mkRat 1 100000

/-- A single susceptible agent for the claim C1 run. -/
def agC1 : Agent :=
  {id := 0, radius := 3, speed := 1, x := 50, y := 50, dx := 1, dy := 1,
   states := [(Marker.start, sSUSCEPTIBLE)], clusterIdx := 0,
   movement_randomness := none}

/-- A default simulation holding just that agent. -/
def simC1 : Sim := {processOptions {} with agents := [agC1]}

/-- Composition of two additive updates under an optional value. -/
theorem map_add_comp (x : Option ℕ) (m n : ℕ) :
    (x.map (fun v => v + m)).map (fun v => v + n) = x.map (fun v => v + (m + n)) := by
  cases x <;> simp [Nat.add_assoc]

/-- cLookup_cIncr phrased as one additive update. -/
theorem cLookup_incr_as_map (k j : String) (cs : List (String × ℕ)) :
    cLookup k (cIncr j cs) =
      (cLookup k cs).map (fun v => v + (if j = k then 1 else 0)) := by
  rw [cLookup_cIncr]
  by_cases h : k = j
  · simp [h]
  · have h2 : ¬ j = k := fun hh => h hh.symm
    simp [h, h2]

/-- Conditional increment as one additive update. -/
theorem cLookup_cond_incr (b : Prop) [Decidable b] (k j : String)
    (cs : List (String × ℕ)) :
    cLookup k (if b then cIncr j cs else cs) =
      (cLookup k cs).map (fun v => v + (if b ∧ j = k then 1 else 0)) := by
  by_cases hb : b
  · rw [if_pos hb, cLookup_incr_as_map]
    simp [hb]
  · rw [if_neg hb]
    simp only [hb, false_and, if_false]
    cases cLookup k cs <;> simp

/-- The membership-guarded increment of eventCalcResults as one additive
update. -/
theorem cLookup_guard_incr (k st : String) (cs : List (String × ℕ)) :
    cLookup k (if (cLookup st cs).isSome = true then cIncr st cs else cs) =
      (cLookup k cs).map (fun v => v + (if st = k then 1 else 0)) := by
  by_cases hg : (cLookup st cs).isSome = true
  · rw [if_pos hg, cLookup_incr_as_map]
  · rw [if_neg hg]
    by_cases h1 : st = k
    · have hnone : cLookup k cs = none := by
        rw [← h1]
        cases hcc : cLookup st cs with
        | none => rfl
        | some v => rw [hcc] at hg; simp at hg
      simp [hnone]
    · cases cLookup k cs <;> simp [h1]

/-- The number of increments one agent contributes to a given counter
during the eventCalcResults scan. -/
def contribOf (s : Sim) (k : String) (a : Agent) : ℕ :=
  match getStateKey a with
  | none => 0
  | some st =>
    (if st = k then 1 else 0) +
    (if stateInfectedB (clusterOf s a).states st = true ∧ kInfections = k then 1 else 0) +
    (if st ≠ sDEAD ∧ kAlive = k then 1 else 0)

/-- One eventCalcResults scan step changes a counter by exactly the
contribution of the scanned agent. -/
theorem cLookup_calcStep (s : Sim) (cs : List (String × ℕ)) (a : Agent)
    (k : String) :
    cLookup k (calcStep s cs a) = (cLookup k cs).map (fun v => v + contribOf s k a) := by
  cases h : getStateKey a with
  | none =>
    simp only [calcStep, contribOf, h]
    cases cLookup k cs <;> simp
  | some st =>
    simp only [calcStep, contribOf, h]
    rw [cLookup_cond_incr, cLookup_cond_incr, cLookup_guard_incr, map_add_comp,
      map_add_comp]
    cases cLookup k cs <;> simp [Nat.add_assoc]

/-- The whole eventCalcResults scan adds the agent contributions to every
counter. -/
theorem cLookup_calcScan (s : Sim) (ags : List Agent) (cs : List (String × ℕ))
    (k : String) :
    cLookup k (ags.foldl (calcStep s) cs) =
      (cLookup k cs).map (fun v => v + (ags.map (contribOf s k)).sum) := by
  induction ags generalizing cs with
  | nil => cases hx : cLookup k cs <;> simp [hx]
  | cons a t ih =>
    rw [List.foldl_cons, ih, cLookup_calcStep, map_add_comp]
    simp [Nat.add_assoc]

/-- The reset pass of eventCalcResults zeroes exactly the counters whose
name does not begin with total_. -/
theorem cLookup_reset (k : String) (cs : List (String × ℕ)) :
    cLookup k (resetNonTotal cs) =
      if k.take 6 = totalFront then cLookup k cs
      else (cLookup k cs).map (fun _ => 0) := by
  induction cs with
  | nil => simp [cLookup, resetNonTotal]
  | cons e t ih =>
    have hcons : resetNonTotal (e :: t) =
        (if e.1.take 6 ≠ totalFront then (e.1, 0) else e) :: resetNonTotal t := rfl
    rw [hcons]
    by_cases hk : e.1 = k
    · subst hk
      by_cases ht : e.1.take 6 = totalFront <;> simp [cLookup, ht]
    · by_cases ht : e.1.take 6 = totalFront <;> simp [cLookup, ht, hk, ih]

/-- An agent whose compartment name does not begin with total_ never
contributes to a counter whose name does. -/
theorem contribOf_total_zero (s : Sim) (k : String) (a : Agent)
    (hk : k.take 6 = totalFront)
    (ha : ∀ st, getStateKey a = some st → st.take 6 ≠ totalFront) :
    contribOf s k a = 0 := by
  unfold contribOf
  cases h : getStateKey a with
  | none => rfl
  | some st =>
    have h1 : ¬ st = k := fun he => (ha st h) (he ▸ hk)
    have h2 : ¬ kInfections = k := by
      intro he
      rw [← he] at hk
      exact absurd hk (by decide)
    have h3 : ¬ kAlive = k := by
      intro he
      rw [← he] at hk
      exact absurd hk (by decide)
    simp [h1, h2, h3]

/-- A simulation state with pre-loaded counter values and no agents,
probing the reset behaviour of the metrics recomputation. -/
def simC2 : Sim :=
  {processOptions {} with counters :=
    [(kAlive, 5), (kTotalInitialInfections, 2),
     (kTotalSimulationInfections, 3), (kInfections, 4)]}

/-- Claim C2 counterexample: one metrics recomputation pass resets the
alive and infections counters to zero (here from 5 and 4), so they are
not cumulative never-reset counters as claimed; only the two counters
whose names begin with total_ survive the reset. -/
theorem claim2_alive_reset_counterexample :
    cLookup kAlive simC2.counters = some 5 ∧
    cLookup kInfections simC2.counters = some 4 ∧
    cLookup kAlive (eventCalcResults simC2).counters = some 0 ∧
    cLookup kInfections (eventCalcResults simC2).counters = some 0 ∧
    cLookup kTotalSimulationInfections (eventCalcResults simC2).counters = some 3 := by
  decide

/-- Claim C2 amended: only the counters whose names begin with total_
(total_initial_infections and total_simulation_infections) survive a
metrics recomputation pass unchanged; every other counter - alive,
infections, and each per-compartment counter - is reset to zero and
rebuilt by a single full scan over all agents, each agent adding its
contribOf contribution (one for its current compartment counter, one to
infections when that compartment is marked infected, one to alive when it
is not DEAD). -/
theorem claim2_amended (s : Sim)
    (h : ∀ a ∈ s.agents, ∀ st, getStateKey a = some st → st.take 6 ≠ totalFront) :
    (∀ k, k.take 6 = totalFront →
      cLookup k (eventCalcResults s).counters = cLookup k s.counters) ∧
    (∀ k, k.take 6 ≠ totalFront →
      cLookup k (eventCalcResults s).counters =
        (cLookup k s.counters).map
          (fun _ => (s.agents.map (contribOf s k)).sum)) := by
  constructor
  · intro k hk
    show cLookup k (s.agents.foldl (calcStep s) (resetNonTotal s.counters)) = _
    rw [cLookup_calcScan, cLookup_reset, if_pos hk]
    have hz : (s.agents.map (contribOf s k)).sum = 0 := by
      apply List.sum_eq_zero
      intro x hx
      rcases List.mem_map.mp hx with ⟨a, hmem, rfl⟩
      exact contribOf_total_zero s k a hk (h a hmem)
    rw [hz]
    cases hx : cLookup k s.counters <;> simp [hx]
  · intro k hk
    show cLookup k (s.agents.foldl (calcStep s) (resetNonTotal s.counters)) = _
    rw [cLookup_calcScan, cLookup_reset, if_neg hk]
    cases hx : cLookup k s.counters <;> simp [hx]

/-- Witness instantiating claim2_amended on a concrete simulation. -/
theorem claim2_amended_witness :
    cLookup kAlive (eventCalcResults simC2).counters =
      (cLookup kAlive simC2.counters).map
        (fun _ => (simC2.agents.map (contribOf simC2 kAlive)).sum) ∧
    cLookup kTotalSimulationInfections (eventCalcResults simC2).counters =
      cLookup kTotalSimulationInfections simC2.counters := by
  exact ⟨(claim2_amended simC2 (by decide)).2 kAlive (by decide),
         (claim2_amended simC2 (by decide)).1 kTotalSimulationInfections (by decide)⟩

/-- Claim C1 (refuted, code bug): in one DURING transition event a
susceptible agent receives TWO appended history entries, first
SUSCEPTIBLE to VACCINATED and then, because the outer catalog scan
continues past the transition and re-matches the destination compartment
VACCINATED that sits later in insertion order, VACCINATED back to
SUSCEPTIBLE in the very same tick.  The source break leaves only the
inner edge loop, so more than one compartment transition per agent per
DURING tick is possible, contradicting the at-most-one claim. -/
theorem claim1_two_transitions_one_tick :
    ((eventAdvanceAgents rC1 simC1).agents.get? 0).map Agent.states =
      some [(Marker.start, sSUSCEPTIBLE), (Marker.it 0, sVACCINATED),
            (Marker.it 0, sSUSCEPTIBLE)] := by
  decide

/-- A zero catalog total: summing all-zero initial ratios gives zero. -/
theorem catalogTotal_zero (cat : Catalog) (h : ∀ e ∈ cat, e.2.initialRatio = 0) :
    catalogTotal cat = 0 := by
  suffices haux : ∀ acc : ℚ,
      cat.foldl (fun t e => t + e.2.initialRatio) acc = acc by
    exact haux 0
  induction cat with
  | nil => intro acc; rfl
  | cons e t ih =>
    intro acc
    have he : e.2.initialRatio = 0 := h e (by simp)
    have ht : ∀ x ∈ t, x.2.initialRatio = 0 := fun x hx => h x (by simp [hx])
    rw [List.foldl_cons, he, add_zero]
    exact ih ht acc

/-- With a zero divisor every computed cumulative proportion is the
non-finite marker (NaN in the source). -/
theorem calcInitialRatiosGo_none (cum : Option ℚ) (cat : Catalog) :
    ∀ e ∈ calcInitialRatiosGo 0 cum cat, e.2.initial_proportion = none := by
  induction cat generalizing cum with
  | nil => intro e he; simp [calcInitialRatiosGo] at he
  | cons x t ih =>
    intro e he
    simp only [calcInitialRatiosGo, jsDiv, if_pos rfl, List.mem_cons] at he
    rcases he with rfl | he
    · cases cum <;> rfl
    · exact ih _ e he

/-- A draw never beats a non-finite cumulative proportion, so no
compartment is assigned. -/
theorem assignInitial_none (cat : Catalog) (d : ℚ)
    (h : ∀ e ∈ cat, e.2.initial_proportion = none) :
    assignInitial cat d = none := by
  induction cat with
  | nil => rfl
  | cons e t ih =>
    have he : e.2.initial_proportion = none := h e (by simp)
    simp only [assignInitial, he, jsLtOpt]
    exact ih (fun x hx => h x (by simp [hx]))

/-- The catalog an agent sees through its cluster back-reference keeps
the all-none proportions. -/
theorem clusterOf_states_none (s t : Sim) (a : Agent)
    (h1 : t.clusters = s.clusters)
    (hnone : ∀ c ∈ s.clusters, ∀ e ∈ c.states, e.2.initial_proportion = none) :
    ∀ e ∈ (clusterOf t a).states, e.2.initial_proportion = none := by
  intro e he
  unfold clusterOf at he
  cases hcl : t.clusters.get? a.clusterIdx with
  | none => rw [hcl] at he; simp [emptyCluster] at he
  | some c =>
    rw [hcl] at he
    simp only [Option.getD_some] at he
    have hmem : c ∈ s.clusters := by
      rw [← h1]
      exact List.get?_mem hcl
    exact hnone c hmem e he

/-- One calcInitialStates step over an all-none distribution only
consumes a draw. -/
theorem initStep_preserve (r : ℕ → ℚ) (s t : Sim) (i : ℕ)
    (hnone : ∀ c ∈ s.clusters, ∀ e ∈ c.states, e.2.initial_proportion = none)
    (h1 : t.clusters = s.clusters) (h2 : t.agents = s.agents)
    (h3 : t.counters = s.counters) :
    (initStep r t i).clusters = s.clusters ∧
    (initStep r t i).agents = s.agents ∧
    (initStep r t i).counters = s.counters := by
  unfold initStep
  cases hg : t.agents.get? i with
  | none => exact ⟨h1, h2, h3⟩
  | some a =>
    have h1b : ({t with rngIdx := t.rngIdx + 1} : Sim).clusters = s.clusters := h1
    have hassign :
        assignInitial (clusterOf ({t with rngIdx := t.rngIdx + 1}) a).states
          (r t.rngIdx) = none := by
      apply assignInitial_none
      exact clusterOf_states_none s ({t with rngIdx := t.rngIdx + 1}) a h1b hnone
    simp only [hassign]
    exact ⟨h1, h2, h3⟩

/-- Claim C4 (refuted, code bug): when the initial-ratio weights of a
cluster all sum to zero, initialization raises NO validation error:
calcInitialRatios returns normally, storing only non-finite (NaN)
cumulative proportions, and calcInitialStates then assigns no compartment
to any agent and counts nothing, leaving every history empty - exactly
the silently-unassignable-agents outcome the specification says must be
rejected. -/
theorem claim4_zero_ratio_no_error (cat : Catalog)
    (h : ∀ e ∈ cat, e.2.initialRatio = 0) :
    (∀ e ∈ calcInitialRatiosCat cat, e.2.initial_proportion = none) ∧
    (∀ (r : ℕ → ℚ) (s : Sim),
      (∀ c ∈ s.clusters, ∀ e ∈ c.states, e.2.initial_proportion = none) →
      (calcInitialStates r s 0 s.agents.length).agents = s.agents ∧
      (calcInitialStates r s 0 s.agents.length).counters = s.counters) := by
  constructor
  · unfold calcInitialRatiosCat
    rw [catalogTotal_zero cat h]
    exact calcInitialRatiosGo_none (some 0) cat
  · intro r s hnone
    unfold calcInitialStates
    suffices haux : ∀ (idxs : List ℕ) (t : Sim),
        t.clusters = s.clusters → t.agents = s.agents → t.counters = s.counters →
        (idxs.foldl (initStep r) t).agents = s.agents ∧
        (idxs.foldl (initStep r) t).counters = s.counters by
      exact haux _ s rfl rfl rfl
    intro idxs
    induction idxs with
    | nil => intro t h1 h2 h3; exact ⟨h2, h3⟩
    | cons i rest ih =>
      intro t h1 h2 h3
      rw [List.foldl_cons]
      obtain ⟨p1, p2, p3⟩ := initStep_preserve r s t i hnone h1 h2 h3
      exact ih (initStep r t i) p1 p2 p3

/-- The default catalog with every initial ratio cleared to zero, as
clearAllInitialRatios leaves it. -/
def catZ : Catalog := SimulationStates.map (fun e => (e.1, {e.2 with initialRatio := 0}))

/-- A default simulation over the zero-weight catalog with one agent
awaiting an initial compartment. -/
def simC4 : Sim :=
  {processOptions {} with
    clusters := [{(processOptions {}).clusters.getD 0 emptyCluster with states := catZ}],
    agents := [agC1]}

/-- Witness instantiating claim4_zero_ratio_no_error on the cleared
default catalog. -/
theorem claim4_witness :
    (calcInitialStates rAny simC4 0 simC4.agents.length).agents = simC4.agents ∧
    (calcInitialStates rAny simC4 0 simC4.agents.length).counters = simC4.counters := by
  exact (claim4_zero_ratio_no_error catZ (by decide)).2 rAny simC4 (by decide)

/-- Claim C3 (refuted, code bug): setClusterTransition with a perfectly
valid from-state and an unknown to-state raises no configuration error
and mutates the catalog, silently appending an edge toward the unknown
compartment; and with an unknown from-state it fails with a TypeError at
the property assignment, not with the documented configuration error.
The guards are dead because (!from_state in cluster.states) tests the
key "false". -/
theorem claim3_transition_setter_unguarded :
    (setClusterTransition SimulationStates sSUSCEPTIBLE sNOSUCH (mkRat 1 2)).toOption.map
        (fun c => (findState c sSUSCEPTIBLE).map (fun d => d.nextStateProb)) =
      some (some [(sVACCINATED, mkRat 25 10000), (sNOSUCH, mkRat 1 2)]) ∧
    setClusterTransition SimulationStates sNOSUCH sRECOVERED (mkRat 1 2) =
      Except.error errTypeError := by
  exact ⟨by decide, rfl⟩

/-- The default catalog after setting the SYMPTOMATIC to RECOVERED
transition probability to 1: the existing RECOVERED edge is overwritten
in place, so the two 0.1 edges to ISOLATED and HOSPITAL still precede
it. -/
def symptomatic1Catalog : Catalog := [
  (sSUSCEPTIBLE, {
    description := "susceptible", color := "rgb(0, 0, 255)",
    infected := false, infectiousness := 0,
    initialRatio := 95,
    nextStateProb := [(sVACCINATED, mkRat 25 10000)] }),
  (sINFECTED_EXPOSED, {
    description := "exposed", color := "rgb(200, 0, 0)",
    infected := true, infectiousness := 0,
    initialRatio := 3,
    nextStateProb := [(sINFECTED_ASYMPTOMATIC, mkRat 33 100)] }),
  (sINFECTED_ASYMPTOMATIC, {
    description := "asymptomatic", color := "rgb(210, 0, 0)",
    infected := true, infectiousness := mkRat 1 10,
    initialRatio := 1,
    nextStateProb := [(sINFECTED_SYMPTOMATIC, mkRat 33 100), (sRECOVERED, mkRat 33 100)] }),
  (sINFECTED_SYMPTOMATIC, {
    description := "symptomatic", color := "rgb(220, 0, 0)",
    infected := true, infectiousness := mkRat 5 10,
    initialRatio := 1,
    nextStateProb := [(sINFECTED_ISOLATED, mkRat 1 10),
                      (sINFECTED_HOSPITAL, mkRat 1 10), (sRECOVERED, 1)] }),
  (sINFECTED_ISOLATED, {
    description := "isolated", color := "rgb(225, 0, 0)",
    infected := true, infectiousness := mkRat 1 1000,
    initialRatio := 0,
    nextStateProb := [(sINFECTED_HOSPITAL, mkRat 1 10), (sRECOVERED, mkRat 1 10)] }),
  (sINFECTED_HOSPITAL, {
    description := "hospitalized", color := "rgb(230, 0, 0)",
    infected := true, infectiousness := mkRat 5 10,
    initialRatio := 0,
    nextStateProb := [(sINFECTED_ICU, mkRat 1 10), (sRECOVERED, mkRat 1 10)] }),
  (sINFECTED_ICU, {
    description := "high care", color := "rgb(240, 0, 0)",
    infected := true, infectiousness := mkRat 5 10,
    initialRatio := 0,
    nextStateProb := [(sDEAD, mkRat 5 10), (sRECOVERED, mkRat 1 10)] }),
  (sTREATED, {
    description := "treated", color := "rgb(0, 150, 40)",
    infected := true, infectiousness := mkRat 1 1000,
    initialRatio := 0,
    nextStateProb := [(sDEAD, mkRat 1 10000), (sINFECTED_ASYMPTOMATIC, mkRat 1 1000)] }),
  (sRECOVERED, {
    description := "recovered", color := "rgb(0, 150, 0)",
    infected := false, infectiousness := 0,
    initialRatio := 0,
    nextStateProb := [(sSUSCEPTIBLE, mkRat 1 1000), (sVACCINATED, mkRat 1 1000)] }),
  (sVACCINATED, {
    description := "vaccinated", color := "rgb(0, 255, 0)",
    infected := false, infectiousness := 0,
    initialRatio := 0,
    nextStateProb := [(sSUSCEPTIBLE, mkRat 5 10000)] }),
  (sDEAD, {
    description := "dead", color := "rgb(0, 0, 0)",
    infected := false, infectiousness := 0,
    initialRatio := 0,
    nextStateProb := [] })]

theorem symptomatic1Catalog_set :
    setClusterTransition SimulationStates sINFECTED_SYMPTOMATIC sRECOVERED 1 =
      Except.ok symptomatic1Catalog := rfl

/-- The draw stream of the C7 counterexample: the first draw lands below
the 0.1 ISOLATED edge, every later draw is one half. -/
def rC7 : ℕ → ℚ := fun n => if n = 0 then mkRat 1 20 else mkRat 1 2

/-- A single symptomatic agent in the middle of the default cluster. -/
def agC7 : Agent :=
  {id := 0, radius := 3, speed := 1, x := 50, y := 50, dx := 1, dy := 1,
   states := [(Marker.start, sINFECTED_SYMPTOMATIC)], clusterIdx := 0,
   movement_randomness := none}

/-- A simulation over the modified catalog holding just that agent. -/
def simC7 : Sim :=
  {processOptions {simulationStates := some symptomatic1Catalog} with
    agents := [agC7]}

/-- The agent after the advance event on the recovery path. -/
def aRec7 : Agent :=
  {agC7 with states := [(Marker.start, sINFECTED_SYMPTOMATIC),
                        (Marker.it 0, sRECOVERED)]}

/-- The agent after the advance event on the isolation path. -/
def aIso7 : Agent :=
  {agC7 with states := [(Marker.start, sINFECTED_SYMPTOMATIC),
                        (Marker.it 0, sINFECTED_ISOLATED)]}

/-- One skipped entry of the eventAdvanceAgents catalog scan. -/
theorem advanceOuter_skip {r : ℕ → ℚ} {it : ℕ} {e : String × StateDef}
    {rest : Catalog} {a : Agent} {i : ℕ} (h : getStateKey a ≠ some e.1) :
    advanceOuter r it (e :: rest) a i = advanceOuter r it rest a i := by
  simp only [advanceOuter]
  rw [if_neg h]

/-- One matched entry of the eventAdvanceAgents catalog scan. -/
theorem advanceOuter_matched {r : ℕ → ℚ} {it : ℕ} {e : String × StateDef}
    {rest : Catalog} {a : Agent} {i : ℕ} (h : getStateKey a = some e.1) :
    advanceOuter r it (e :: rest) a i =
      advanceOuter r it rest (advanceInner r it e.2.nextStateProb a i).1
        (advanceInner r it e.2.nextStateProb a i).2 := by
  simp only [advanceOuter]
  rw [if_pos h]

/-- The empty tail of the catalog scan. -/
theorem advanceOuter_nil {r : ℕ → ℚ} {it : ℕ} {a : Agent} {i : ℕ} :
    advanceOuter r it [] a i = (a, i) := rfl

/-- A successful Bernoulli draw on one outgoing edge. -/
theorem advanceInner_hit {r : ℕ → ℚ} {it : ℕ} {e : String × ℚ}
    {rest : List (String × ℚ)} {a : Agent} {i : ℕ} (h : r i < e.2) :
    advanceInner r it (e :: rest) a i =
      ({a with states := a.states ++ [(Marker.it it, e.1)]}, i + 1) := by
  simp only [advanceInner]
  rw [if_pos h]

/-- A failed Bernoulli draw on one outgoing edge. -/
theorem advanceInner_miss {r : ℕ → ℚ} {it : ℕ} {e : String × ℚ}
    {rest : List (String × ℚ)} {a : Agent} {i : ℕ} (h : ¬ r i < e.2) :
    advanceInner r it (e :: rest) a i = advanceInner r it rest a (i + 1) := by
  simp only [advanceInner]
  rw [if_neg h]

/-- An empty edge list leaves the agent alone. -/
theorem advanceInner_nil {r : ℕ → ℚ} {it : ℕ} {a : Agent} {i : ℕ} :
    advanceInner r it [] a i = (a, i) := rfl

theorem advanceC7_rec (r : ℕ → ℚ)
    (h0 : ¬ r 0 < mkRat 1 10) (h1 : ¬ r 1 < mkRat 1 10) (h2 : r 2 < (1 : ℚ))
    (h3 : ¬ r 3 < mkRat 1 1000) (h4 : ¬ r 4 < mkRat 1 1000) :
    advanceOuter r 0 symptomatic1Catalog agC7 0 = (aRec7, 5) := by
  simp only [symptomatic1Catalog]
  rw [advanceOuter_skip (show getStateKey agC7 ≠ some sSUSCEPTIBLE from by decide)]
  rw [advanceOuter_skip (show getStateKey agC7 ≠ some sINFECTED_EXPOSED from by decide)]
  rw [advanceOuter_skip (show getStateKey agC7 ≠ some sINFECTED_ASYMPTOMATIC from by decide)]
  rw [advanceOuter_matched (show getStateKey agC7 = some sINFECTED_SYMPTOMATIC from rfl)]
  dsimp only
  rw [advanceInner_miss h0]
  simp only [Nat.reduceAdd]
  rw [advanceInner_miss h1]
  simp only [Nat.reduceAdd]
  rw [advanceInner_hit h2]
  rw [show ({agC7 with states :=
    agC7.states ++ [(Marker.it 0, sRECOVERED)]} : Agent) = aRec7 from rfl]
  simp only [Nat.reduceAdd]
  rw [advanceOuter_skip (show getStateKey aRec7 ≠ some sINFECTED_ISOLATED from by decide)]
  rw [advanceOuter_skip (show getStateKey aRec7 ≠ some sINFECTED_HOSPITAL from by decide)]
  rw [advanceOuter_skip (show getStateKey aRec7 ≠ some sINFECTED_ICU from by decide)]
  rw [advanceOuter_skip (show getStateKey aRec7 ≠ some sTREATED from by decide)]
  rw [advanceOuter_matched (show getStateKey aRec7 = some sRECOVERED from rfl)]
  dsimp only
  rw [advanceInner_miss h3]
  simp only [Nat.reduceAdd]
  rw [advanceInner_miss h4]
  simp only [Nat.reduceAdd]
  rw [advanceInner_nil]
  rw [advanceOuter_skip (show getStateKey aRec7 ≠ some sVACCINATED from by decide)]
  rw [advanceOuter_skip (show getStateKey aRec7 ≠ some sDEAD from by decide)]
  rw [advanceOuter_nil]

theorem advanceC7_iso (r : ℕ → ℚ)
    (g0 : r 0 < mkRat 1 10) (g1 : ¬ r 1 < mkRat 1 10) (g2 : ¬ r 2 < mkRat 1 10) :
    advanceOuter r 0 symptomatic1Catalog agC7 0 = (aIso7, 3) := by
  simp only [symptomatic1Catalog]
  rw [advanceOuter_skip (show getStateKey agC7 ≠ some sSUSCEPTIBLE from by decide)]
  rw [advanceOuter_skip (show getStateKey agC7 ≠ some sINFECTED_EXPOSED from by decide)]
  rw [advanceOuter_skip (show getStateKey agC7 ≠ some sINFECTED_ASYMPTOMATIC from by decide)]
  rw [advanceOuter_matched (show getStateKey agC7 = some sINFECTED_SYMPTOMATIC from rfl)]
  dsimp only
  rw [advanceInner_hit g0]
  rw [show ({agC7 with states :=
    agC7.states ++ [(Marker.it 0, sINFECTED_ISOLATED)]} : Agent) = aIso7 from rfl]
  simp only [Nat.reduceAdd]
  rw [advanceOuter_matched (show getStateKey aIso7 = some sINFECTED_ISOLATED from rfl)]
  dsimp only
  rw [advanceInner_miss g1]
  simp only [Nat.reduceAdd]
  rw [advanceInner_miss g2]
  simp only [Nat.reduceAdd]
  rw [advanceInner_nil]
  rw [advanceOuter_skip (show getStateKey aIso7 ≠ some sINFECTED_HOSPITAL from by decide)]
  rw [advanceOuter_skip (show getStateKey aIso7 ≠ some sINFECTED_ICU from by decide)]
  rw [advanceOuter_skip (show getStateKey aIso7 ≠ some sTREATED from by decide)]
  rw [advanceOuter_skip (show getStateKey aIso7 ≠ some sRECOVERED from by decide)]
  rw [advanceOuter_skip (show getStateKey aIso7 ≠ some sVACCINATED from by decide)]
  rw [advanceOuter_skip (show getStateKey aIso7 ≠ some sDEAD from by decide)]
  rw [advanceOuter_nil]

/-- The advance event on the C7 simulation, given the outcome of the
single catalog scan. -/
theorem eventAdvanceC7 (r : ℕ → ℚ) (b : Agent) (j : ℕ)
    (h : advanceOuter r 0 symptomatic1Catalog agC7 0 = (b, j)) :
    eventAdvanceAgents r {simC7 with eventPhase := EventPhase.DURING} =
      {simC7 with eventPhase := EventPhase.DURING, agents := [b], rngIdx := j} := by
  have hacc : advanceAcc r {simC7 with eventPhase := EventPhase.DURING} ([], 0) agC7 =
      ([b], j) := by
    show ((([] : List Agent) ++ [(advanceOuter r 0 symptomatic1Catalog agC7 0).1],
          (advanceOuter r 0 symptomatic1Catalog agC7 0).2) : List Agent × ℕ) = ([b], j)
    rw [h]
    rfl
  have hfold : List.foldl (advanceAcc r {simC7 with eventPhase := EventPhase.DURING})
      ([], 0) [agC7] = ([b], j) := by
    rw [List.foldl_cons, hacc, List.foldl_nil]
  show (let p := List.foldl (advanceAcc r {simC7 with eventPhase := EventPhase.DURING}) ([], 0) [agC7];
    ({simC7 with eventPhase := EventPhase.DURING, agents := p.1, rngIdx := p.2} : Sim)) =
    {simC7 with eventPhase := EventPhase.DURING, agents := [b], rngIdx := j}
  dsimp only
  rw [hfold]

/-- The single default cluster of the C7 simulation. -/
def clusterC7 : Cluster :=
  {name := "default", left := 0, top := 0, right := 320, bottom := 320,
   border := true, borderColor := "black", numAgents := 0,
   states := symptomatic1Catalog,
   beforeEvents := [],
   duringEvents := [Ev.advanceAgents, Ev.moveAgents, Ev.calcResults,
                    Ev.recordResult],
   afterEvents := [Ev.calcResults, Ev.recordResult]}

theorem clusterC7_spec : simC7.clusters = [clusterC7] := rfl

/-- The boundary reflection leaves the C7 agent untouched whatever its
history. -/
theorem reflectC7 (st : List (Marker × String)) :
    reflectAgent clusterC7 {agC7 with states := st} = {agC7 with states := st} := by
  unfold reflectAgent
  norm_num [clusterC7, agC7]

/-- Position clamping on the moved C7 agent. -/
theorem correctC7 (st : List (Marker × String)) :
    correctPosition clusterC7
        {agC7 with states := st, x := (50 : ℚ) + 1, y := (50 : ℚ) + 1} =
      {agC7 with states := st, x := 51, y := 51} := by
  unfold correctPosition
  norm_num [clusterC7, agC7]

/-- The move event on the C7 simulation: the single agent keeps its
history, advances one unit right and down, and one redirect draw is
consumed. -/
theorem moveC7 (r : ℕ → ℚ) (st : List (Marker × String)) (j : ℕ)
    (h : getStateKey {agC7 with states := st} ≠ some sDEAD) :
    eventMoveAgents r ({simC7 with
        eventPhase := EventPhase.DURING,
        agents := [{agC7 with states := st}],
        rngIdx := j} : Sim) =
      {simC7 with
        eventPhase := EventPhase.DURING,
        agents := [{agC7 with states := st, x := 51, y := 51}],
        rngIdx := j + 1} := by
  show (if getStateKey {agC7 with states := st} ≠ some sDEAD then
      move r ({simC7 with
        eventPhase := EventPhase.DURING,
        agents := [{agC7 with states := st}],
        rngIdx := j} : Sim) 0
    else ({simC7 with
        eventPhase := EventPhase.DURING,
        agents := [{agC7 with states := st}],
        rngIdx := j} : Sim)) = _
  rw [if_pos h]
  show (if getStateKey {agC7 with states := st} = some sDEAD then
      ({simC7 with
        eventPhase := EventPhase.DURING,
        agents := [{agC7 with states := st, x := -1000, y := -1000}],
        rngIdx := j} : Sim)
    else movePost (detectInfections r ({simC7 with
        eventPhase := EventPhase.DURING,
        agents := [reflectAgent clusterC7 {agC7 with states := st}],
        rngIdx := j + 1} : Sim) 0) 0) = _
  rw [if_neg h]
  rw [reflectC7 st]
  show ({simC7 with
    eventPhase := EventPhase.DURING,
    agents := [correctPosition clusterC7 {agC7 with states := st, x := (50 : ℚ) + 1, y := (50 : ℚ) + 1}],
    rngIdx := j + 1} : Sim) = _
  rw [correctC7 st]

theorem makeInfection_config (r : ℕ → ℚ) (s : Sim) (toIdx : ℕ) (risk : ℚ) :
    (makeInfection r s toIdx risk).config = s.config := by
  unfold makeInfection
  split_ifs <;> rfl

theorem infectAgent_config (r : ℕ → ℚ) (s : Sim) (i b : ℕ) :
    (infectAgent r s i b).config = s.config := by
  unfold infectAgent
  cases s.agents.get? i with
  | none => rfl
  | some a =>
    cases s.agents.get? b with
    | none => rfl
    | some o =>
      dsimp only
      split_ifs <;> first | rw [makeInfection_config] | rfl

theorem detectSwap_config (s : Sim) (i b : ℕ) (a o : Agent) :
    (detectSwap s i b a o).config = s.config := by
  unfold detectSwap
  split_ifs <;> rfl

theorem detectStep_config (r : ℕ → ℚ) (i : ℕ) (s : Sim) (b : ℕ) :
    (detectStep r i s b).config = s.config := by
  unfold detectStep
  cases s.agents.get? i with
  | none => rfl
  | some a =>
    cases s.agents.get? b with
    | none => rfl
    | some o =>
      dsimp only
      split_ifs <;> simp [infectAgent_config, detectSwap_config]

theorem detectInfections_config (r : ℕ → ℚ) (s : Sim) (i : ℕ) :
    (detectInfections r s i).config = s.config := by
  unfold detectInfections
  generalize List.range s.agents.length = idxs
  induction idxs generalizing s with
  | nil => rfl
  | cons b rest ih =>
    rw [List.foldl_cons, ih, detectStep_config]

theorem movePost_config (s1 : Sim) (i : ℕ) :
    (movePost s1 i).config = s1.config := by
  unfold movePost
  cases s1.agents.get? i <;> rfl

theorem move_config (r : ℕ → ℚ) (s : Sim) (i : ℕ) :
    (move r s i).config = s.config := by
  unfold move
  cases s.agents.get? i with
  | none => rfl
  | some a =>
    dsimp only
    split_ifs
    · rfl
    · rw [movePost_config, detectInfections_config]

theorem moveStep_config (r : ℕ → ℚ) (t : Sim) (i : ℕ) :
    (moveStep r t i).config = t.config := by
  unfold moveStep
  cases t.agents.get? i with
  | none => rfl
  | some a =>
    dsimp only
    split_ifs
    · rw [move_config]
    · rfl

theorem eventMoveAgents_config (r : ℕ → ℚ) (s : Sim) :
    (eventMoveAgents r s).config = s.config := by
  unfold eventMoveAgents
  generalize List.range s.agents.length = idxs
  induction idxs generalizing s with
  | nil => rfl
  | cons i rest ih =>
    rw [List.foldl_cons, ih, moveStep_config]

theorem runEvent_config (r : ℕ → ℚ) (e : Ev) (s : Sim) :
    (runEvent r e s).config = s.config := by
  cases e
  · rfl
  · exact eventMoveAgents_config r s
  · rfl
  · rfl
  · rfl

theorem runEvents_config (r : ℕ → ℚ) (s : Sim) (evs : List Ev) :
    (runEvents r s evs).config = s.config := by
  unfold runEvents
  induction evs generalizing s with
  | nil => rfl
  | cons e t ih =>
    rw [List.foldl_cons, ih, runEvent_config]

/-- The record event leaves the agent list alone. -/
theorem eventRecordResult_agents (s : Sim) :
    (eventRecordResult s).agents = s.agents := rfl

/-- The calc event leaves the agent list alone. -/
theorem eventCalcResults_agents (s : Sim) :
    (eventCalcResults s).agents = s.agents := rfl

/-- The record event leaves the counter table alone. -/
theorem eventRecordResult_counters (s : Sim) :
    (eventRecordResult s).counters = s.counters := rfl

/-- One iteration of a one-cluster simulation with the default during
pipeline and no maximum iteration count: the four during events run in
order and the iteration counter advances. -/
theorem oneIteration_default (r : ℕ → ℚ) (s : Sim) (c : Cluster)
    (hcl : s.clusters = [c])
    (hev : c.duringEvents =
      [Ev.advanceAgents, Ev.moveAgents, Ev.calcResults, Ev.recordResult])
    (hmax : s.config.maxIterations = 0) :
    oneIteration r s =
      (fun t => {t with iteration := t.iteration + 1})
        (eventRecordResult (eventCalcResults (eventMoveAgents r
          (eventAdvanceAgents r {s with eventPhase := EventPhase.DURING})))) := by
  have hfold : ∀ t : Sim,
      List.foldl (fun t2 c2 => runEvents r t2 c2.duringEvents) t s.clusters =
        eventRecordResult (eventCalcResults (eventMoveAgents r
          (eventAdvanceAgents r t))) := by
    intro t
    rw [hcl, List.foldl_cons, List.foldl_nil, hev]
    rfl
  have hc : (eventRecordResult (eventCalcResults (eventMoveAgents r
      (eventAdvanceAgents r {s with eventPhase := EventPhase.DURING})))).config.maxIterations
      = 0 := by
    rw [show (eventRecordResult (eventCalcResults (eventMoveAgents r
      (eventAdvanceAgents r {s with eventPhase := EventPhase.DURING})))).config =
      (eventMoveAgents r
        (eventAdvanceAgents r {s with eventPhase := EventPhase.DURING})).config from rfl]
    rw [eventMoveAgents_config]
    exact hmax
  unfold oneIteration
  dsimp only
  rw [hfold]
  rw [if_neg (show ¬ 0 < (eventRecordResult (eventCalcResults (eventMoveAgents r
    (eventAdvanceAgents r {s with eventPhase := EventPhase.DURING})))).config.maxIterations
    from by rw [hc]; exact Nat.lt_irrefl 0)]

/-- Every draw of the witness stream is one half. -/
def rHalf : ℕ → ℚ := fun _ => mkRat 1 2

/-- C7: counterexample.  With the SYMPTOMATIC to RECOVERED probability
set to 1.0, the first 0.1 draw of the catalog scan can send a
symptomatic agent to INFECTED_ISOLATED instead: the overwritten
RECOVERED edge sits third in the scan order, so the claim that every
symptomatic agent becomes RECOVERED after one DURING tick fails. -/
theorem claim7_symptomatic_not_recovered_counterexample :
    setClusterTransition SimulationStates sINFECTED_SYMPTOMATIC sRECOVERED 1 =
      Except.ok symptomatic1Catalog ∧
    (simC7.agents.get? 0).map getStateKey = some (some sINFECTED_SYMPTOMATIC) ∧
    ((oneIteration rC7 simC7).agents.get? 0).map getStateKey =
      some (some sINFECTED_ISOLATED) := by
  refine ⟨rfl, rfl, ?_⟩
  rw [oneIteration_default rC7 simC7 clusterC7 clusterC7_spec rfl rfl]
  rw [eventAdvanceC7 rC7 aIso7 3 (advanceC7_iso rC7 (by decide) (by decide) (by decide))]
  rw [show aIso7 = ({agC7 with states := [(Marker.start, sINFECTED_SYMPTOMATIC), (Marker.it 0, sINFECTED_ISOLATED)]} : Agent) from rfl]
  rw [moveC7 rC7 [(Marker.start, sINFECTED_SYMPTOMATIC), (Marker.it 0, sINFECTED_ISOLATED)] 3 (by decide)]
  decide

/-- C7: amended.  One DURING tick on the modified catalog sends the
symptomatic agent to RECOVERED exactly when the two 0.1 draws that are
scanned first both fail and the two re-scan draws of the RECOVERED entry
fail as well; the INFECTED_SYMPTOMATIC counter then reads 0 after the
tick. -/
theorem claim7_amended (r : ℕ → ℚ)
    (h0 : ¬ r 0 < mkRat 1 10) (h1 : ¬ r 1 < mkRat 1 10) (h2 : r 2 < (1 : ℚ))
    (h3 : ¬ r 3 < mkRat 1 1000) (h4 : ¬ r 4 < mkRat 1 1000) :
    ((oneIteration r simC7).agents.get? 0).map getStateKey =
      some (some sRECOVERED) ∧
    cLookup sINFECTED_SYMPTOMATIC (oneIteration r simC7).counters = some 0 := by
  rw [oneIteration_default r simC7 clusterC7 clusterC7_spec rfl rfl]
  rw [eventAdvanceC7 r aRec7 5 (advanceC7_rec r h0 h1 h2 h3 h4)]
  rw [show aRec7 = ({agC7 with states := [(Marker.start, sINFECTED_SYMPTOMATIC), (Marker.it 0, sRECOVERED)]} : Agent) from rfl]
  rw [moveC7 r [(Marker.start, sINFECTED_SYMPTOMATIC), (Marker.it 0, sRECOVERED)] 5 (by decide)]
  exact ⟨by decide, by decide⟩

/-- C7: witness for the amended theorem at the all-one-half stream. -/
theorem claim7_amended_witness :
    ((¬ rHalf 0 < mkRat 1 10) ∧ (¬ rHalf 1 < mkRat 1 10) ∧
     rHalf 2 < (1 : ℚ) ∧ (¬ rHalf 3 < mkRat 1 1000) ∧
     (¬ rHalf 4 < mkRat 1 1000)) ∧
    (((oneIteration rHalf simC7).agents.get? 0).map getStateKey =
       some (some sRECOVERED) ∧
     cLookup sINFECTED_SYMPTOMATIC (oneIteration rHalf simC7).counters = some 0) :=
  ⟨by decide,
   claim7_amended rHalf (by decide) (by decide) (by decide) (by decide) (by decide)⟩

/-- A recovered agent heading right, next to the dead agent below. -/
def agC8a : Agent :=
  {id := 0, radius := 3, speed := 1, x := 10, y := 10, dx := 1, dy := 0,
   states := [(Marker.start, sRECOVERED)], clusterIdx := 0,
   movement_randomness := none}

/-- A dead agent at rest one unit to the right. -/
def agC8d : Agent :=
  {id := 1, radius := 3, speed := 1, x := 11, y := 10, dx := 0, dy := 0,
   states := [(Marker.start, sINFECTED_ICU), (Marker.it 0, sDEAD)],
   clusterIdx := 0, movement_randomness := none}

/-- A default simulation holding the two agents. -/
def simC8 : Sim := {processOptions {} with agents := [agC8a, agC8d]}

theorem hcollide1C8 : collide1 agC8a agC8d = true := by
  simp only [collide1, distanceSquared, agC8a, agC8d]
  norm_num

theorem hcollideC8 : detectCollision agC8a agC8d = true := by
  rw [show detectCollision agC8a agC8d =
    (collide1 agC8a agC8d || collide2 agC8a agC8d) from rfl, hcollide1C8]
  rfl

/-- C8: counterexample.  A dead agent is still a member of a detected
colliding pair: the collision scan of a live neighbour detects it and,
with elastic collisions on, hands it the neighbour's velocity. -/
theorem claim8_dead_agent_collides_counterexample :
    getStateKey agC8d = some sDEAD ∧
    detectCollision agC8a agC8d = true ∧
    (simC8.agents.get? 1).map Agent.dx = some 0 ∧
    ((detectInfections rAny simC8 0).agents.get? 1).map Agent.dx = some 1 := by
  refine ⟨rfl, hcollideC8, rfl, ?_⟩
  show ((List.foldl (detectStep rAny 0) simC8 [0, 1]).agents.get? 1).map Agent.dx =
    some 1
  rw [List.foldl_cons, List.foldl_cons, List.foldl_nil]
  rw [show detectStep rAny 0 simC8 0 = simC8 from rfl]
  show (Option.map Agent.dx (((if detectCollision agC8a agC8d = true then
      infectAgent rAny (detectSwap (if collide1 agC8a agC8d = true then
        ({simC8 with collisions := simC8.collisions + 1} : Sim) else simC8)
        0 1 agC8a agC8d) 0 1
    else (if collide1 agC8a agC8d = true then
      ({simC8 with collisions := simC8.collisions + 1} : Sim)
    else simC8)) : Sim).agents.get? 1)) = some 1
  rw [hcollide1C8, hcollideC8]
  decide

/-- The calc event leaves the cluster list alone. -/
theorem eventCalcResults_clusters (s : Sim) :
    (eventCalcResults s).clusters = s.clusters := rfl

/-- Any event leaves the cluster list alone. -/
theorem runEvent_clusters (r : ℕ → ℚ) (e : Ev) (s : Sim) :
    (runEvent r e s).clusters = s.clusters := by
  cases e
  · rfl
  · exact (simEvolves_eventMoveAgents r s).1
  · rfl
  · rfl
  · rfl

/-- An event list leaves the cluster list alone. -/
theorem runEvents_clusters (r : ℕ → ℚ) (s : Sim) (evs : List Ev) :
    (runEvents r s evs).clusters = s.clusters := by
  unfold runEvents
  induction evs generalizing s with
  | nil => rfl
  | cons e t ih =>
    rw [List.foldl_cons, ih, runEvent_clusters]

/-- A cluster-event fold leaves the cluster list alone. -/
theorem clustersFold_clusters (r : ℕ → ℚ) (f : Cluster → List Ev)
    (cls : List Cluster) : ∀ s : Sim,
    (cls.foldl (fun t c => runEvents r t (f c)) s).clusters = s.clusters := by
  induction cls with
  | nil => intro s; rfl
  | cons c t ih =>
    intro s
    rw [List.foldl_cons, ih, runEvents_clusters]

/-- Pausing leaves the agent list alone. -/
theorem pause_agents (s : Sim) : (pause s).agents = s.agents := by
  unfold pause
  split_ifs <;> rfl

/-- The advance event leaves a dead agent alone whenever the dead
compartment has no outgoing transitions in any cluster catalog. -/
theorem eventAdvanceAgents_dead (r : ℕ → ℚ) (s : Sim) (i : ℕ) (a : Agent)
    (hget : s.agents.get? i = some a) (hdead : getStateKey a = some sDEAD)
    (hcat : ∀ c ∈ s.clusters, ∀ e ∈ c.states, e.1 = sDEAD →
      e.2.nextStateProb = []) :
    (eventAdvanceAgents r s).agents.get? i = some a := by
  obtain ⟨i2, hg⟩ := eventAdvanceAgents_get r s i a hget
  rw [hg]
  have hcl : ∀ e ∈ (clusterOf s a).states, e.1 = sDEAD →
      e.2.nextStateProb = [] := by
    unfold clusterOf
    cases hx : s.clusters.get? a.clusterIdx with
    | none =>
      intro e he
      simp [emptyCluster] at he
    | some c =>
      intro e he hek
      exact hcat c (List.get?_mem hx) e (by simpa using he) hek
  rw [advanceOuter_no_edges r s.iteration _ a sDEAD hdead hcl i2]

/-- The move event never changes a dead agent's position or history. -/
theorem eventMoveAgents_dead (r : ℕ → ℚ) (s : Sim) (i : ℕ) (a : Agent)
    (hget : s.agents.get? i = some a) (hdead : getStateKey a = some sDEAD) :
    ∃ b, (eventMoveAgents r s).agents.get? i = some b ∧ b.x = a.x ∧
      b.y = a.y ∧ b.states = a.states ∧ b.clusterIdx = a.clusterIdx := by
  obtain ⟨-, -, hev⟩ := simEvolves_eventMoveAgents r s
  obtain ⟨b, hb, hab⟩ := hev.2 i a hget
  obtain ⟨hcl, -, hdx⟩ := hab
  obtain ⟨hx, hy, hs⟩ := hdx hdead
  exact ⟨b, hb, hx, hy, hs, hcl.symm⟩

/-- No single event moves, advances or rewrites a dead agent. -/
theorem runEvent_dead (r : ℕ → ℚ) (e : Ev) (s : Sim) (i : ℕ) (a : Agent)
    (hget : s.agents.get? i = some a) (hdead : getStateKey a = some sDEAD)
    (hcat : ∀ c ∈ s.clusters, ∀ e2 ∈ c.states, e2.1 = sDEAD →
      e2.2.nextStateProb = []) :
    ∃ b, (runEvent r e s).agents.get? i = some b ∧ b.x = a.x ∧
      b.y = a.y ∧ b.states = a.states ∧ b.clusterIdx = a.clusterIdx := by
  cases e
  · exact ⟨a, eventAdvanceAgents_dead r s i a hget hdead hcat, rfl, rfl, rfl, rfl⟩
  · exact eventMoveAgents_dead r s i a hget hdead
  · exact ⟨a, hget, rfl, rfl, rfl, rfl⟩
  · exact ⟨a, hget, rfl, rfl, rfl, rfl⟩
  · exact ⟨a, hget, rfl, rfl, rfl, rfl⟩

/-- No event list moves, advances or rewrites a dead agent. -/
theorem runEvents_dead (r : ℕ → ℚ) (evs : List Ev) :
    ∀ (s : Sim) (i : ℕ) (a : Agent), s.agents.get? i = some a →
    getStateKey a = some sDEAD →
    (∀ c ∈ s.clusters, ∀ e2 ∈ c.states, e2.1 = sDEAD →
      e2.2.nextStateProb = []) →
    ∃ b, (runEvents r s evs).agents.get? i = some b ∧ b.x = a.x ∧
      b.y = a.y ∧ b.states = a.states ∧ b.clusterIdx = a.clusterIdx := by
  induction evs with
  | nil => exact fun s i a hget _ _ => ⟨a, hget, rfl, rfl, rfl, rfl⟩
  | cons e t ih =>
    intro s i a hget hdead hcat
    obtain ⟨b, hb, hbx, hby, hbs, hbc⟩ := runEvent_dead r e s i a hget hdead hcat
    obtain ⟨c2, hc2, h2x, h2y, h2s, h2c⟩ := ih (runEvent r e s) i b hb
      (by rw [getStateKey_congr hbs]; exact hdead)
      (by rw [runEvent_clusters]; exact hcat)
    refine ⟨c2, ?_, h2x.trans hbx, h2y.trans hby, h2s.trans hbs, h2c.trans hbc⟩
    show (runEvents r (runEvent r e s) t).agents.get? i = some c2
    exact hc2

/-- No cluster-event fold moves, advances or rewrites a dead agent. -/
theorem clustersFold_dead (r : ℕ → ℚ) (f : Cluster → List Ev)
    (cls : List Cluster) :
    ∀ (s : Sim) (i : ℕ) (a : Agent), s.agents.get? i = some a →
    getStateKey a = some sDEAD →
    (∀ c ∈ s.clusters, ∀ e2 ∈ c.states, e2.1 = sDEAD →
      e2.2.nextStateProb = []) →
    ∃ b, ((cls.foldl (fun t c => runEvents r t (f c)) s).agents.get? i = some b ∧
      b.x = a.x ∧ b.y = a.y ∧ b.states = a.states ∧
      b.clusterIdx = a.clusterIdx) := by
  induction cls with
  | nil => exact fun s i a hget _ _ => ⟨a, hget, rfl, rfl, rfl, rfl⟩
  | cons c t ih =>
    intro s i a hget hdead hcat
    obtain ⟨b, hb, hbx, hby, hbs, hbc⟩ := runEvents_dead r (f c) s i a hget hdead hcat
    obtain ⟨c2, hc2, h2x, h2y, h2s, h2c⟩ := ih (runEvents r s (f c)) i b hb
      (by rw [getStateKey_congr hbs]; exact hdead)
      (by rw [runEvents_clusters]; exact hcat)
    refine ⟨c2, ?_, h2x.trans hbx, h2y.trans hby, h2s.trans hbs, h2c.trans hbc⟩
    rw [List.foldl_cons]
    exact hc2

/-- C8: amended.  Once an agent's compartment is DEAD (and DEAD has no
outgoing transitions in any cluster catalog, as in the default catalog),
a whole iteration never changes its position or its history: it is
skipped by motion and cannot transition, even though the collision scan
can still hand it a new velocity. -/
theorem claim8_amended (r : ℕ → ℚ) (s : Sim) (i : ℕ) (a : Agent)
    (hget : s.agents.get? i = some a) (hdead : getStateKey a = some sDEAD)
    (hcat : ∀ c ∈ s.clusters, ∀ e2 ∈ c.states, e2.1 = sDEAD →
      e2.2.nextStateProb = []) :
    ∃ b, (oneIteration r s).agents.get? i = some b ∧ b.x = a.x ∧
      b.y = a.y ∧ b.states = a.states := by
  unfold oneIteration
  dsimp only
  obtain ⟨b, hb, hbx, hby, hbs, hbc⟩ :=
    clustersFold_dead r Cluster.duringEvents s.clusters
      {s with eventPhase := EventPhase.DURING} i a hget hdead hcat
  split_ifs with h1 h2
  · unfold stop
    have hpa : (pause ({(List.foldl (fun t c => runEvents r t c.duringEvents)
        {s with eventPhase := EventPhase.DURING} s.clusters) with
        iteration := (List.foldl (fun t c => runEvents r t c.duringEvents)
          {s with eventPhase := EventPhase.DURING} s.clusters).iteration + 1} : Sim)).agents.get? i =
        some b := by
      rw [pause_agents]
      exact hb
    unfold afterIteration
    dsimp only
    obtain ⟨c2, hc2, h2x, h2y, h2s, h2c⟩ :=
      clustersFold_dead r Cluster.afterEvents _ _ i b
        (by rw [show ∀ t : Sim, ({t with eventPhase := EventPhase.AFTER} : Sim).agents
          = t.agents from fun t => rfl]; exact hpa)
        (by rw [getStateKey_congr hbs]; exact hdead)
        (by
          rw [show ∀ t : Sim, ({t with eventPhase := EventPhase.AFTER} : Sim).clusters
            = t.clusters from fun t => rfl]
          rw [pause_clusters]
          show ∀ c ∈ (List.foldl (fun t c => runEvents r t c.duringEvents)
            {s with eventPhase := EventPhase.DURING} s.clusters).clusters, _
          rw [clustersFold_clusters]
          exact hcat)
    exact ⟨c2, hc2, h2x.trans hbx, h2y.trans hby, h2s.trans hbs⟩
  · exact ⟨b, hb, hbx, hby, hbs⟩
  · exact ⟨b, hb, hbx, hby, hbs⟩

/-- C8: witness for the amended theorem on the two-agent simulation. -/
theorem claim8_amended_witness :
    (simC8.agents.get? 1 = some agC8d ∧ getStateKey agC8d = some sDEAD ∧
     (∀ c ∈ simC8.clusters, ∀ e2 ∈ c.states, e2.1 = sDEAD →
       e2.2.nextStateProb = [])) ∧
    ∃ b, (oneIteration rAny simC8).agents.get? 1 = some b ∧ b.x = agC8d.x ∧
      b.y = agC8d.y ∧ b.states = agC8d.states :=
  ⟨⟨rfl, rfl, by decide⟩, claim8_amended rAny simC8 1 agC8d rfl rfl (by decide)⟩

/-- One agent's history growing by a suffix: nothing is removed or
rewritten. -/
def AgentGrows (a b : Agent) : Prop := ∃ t, b.states = a.states ++ t

/-- A list of agents growing pointwise: same number of agents, each
history extended only at its end. -/
def Grows (l l2 : List Agent) : Prop :=
  l2.length = l.length ∧
  ∀ j a, l.get? j = some a → ∃ b, l2.get? j = some b ∧ AgentGrows a b

theorem agentGrows_refl (a : Agent) : AgentGrows a a := ⟨[], by simp⟩

theorem agentGrows_trans {a b c : Agent}
    (h1 : AgentGrows a b) (h2 : AgentGrows b c) : AgentGrows a c := by
  obtain ⟨t1, ht1⟩ := h1
  obtain ⟨t2, ht2⟩ := h2
  exact ⟨t1 ++ t2, by rw [ht2, ht1, List.append_assoc]⟩

theorem grows_refl (l : List Agent) : Grows l l :=
  ⟨rfl, fun _ a h => ⟨a, h, agentGrows_refl a⟩⟩

theorem grows_trans {l1 l2 l3 : List Agent}
    (h1 : Grows l1 l2) (h2 : Grows l2 l3) : Grows l1 l3 := by
  refine ⟨h2.1.trans h1.1, fun j a ha => ?_⟩
  obtain ⟨b, hb, hab⟩ := h1.2 j a ha
  obtain ⟨c, hc, hbc⟩ := h2.2 j b hb
  exact ⟨c, hc, agentGrows_trans hab hbc⟩

/-- The move pipeline only grows histories. -/
theorem evolves_grows {l l2 : List Agent} (h : Evolves l l2) : Grows l l2 := by
  refine ⟨h.1, fun j a ha => ?_⟩
  obtain ⟨b, hb, hab⟩ := h.2 j a ha
  obtain ⟨-, ⟨t, ht, -⟩, -⟩ := hab
  exact ⟨b, hb, t, ht⟩

/-- The advance event only grows histories. -/
theorem eventAdvanceAgents_grows (r : ℕ → ℚ) (s : Sim) :
    Grows s.agents (eventAdvanceAgents r s).agents := by
  refine ⟨eventAdvanceAgents_length r s, fun j a ha => ?_⟩
  obtain ⟨i2, hg⟩ := eventAdvanceAgents_get r s j a ha
  obtain ⟨t, ht⟩ := advanceOuter_shape r s.iteration (clusterOf s a).states a i2
  refine ⟨(advanceOuter r s.iteration (clusterOf s a).states a i2).1, hg, t, ?_⟩
  rw [ht]

/-- No single event removes or rewrites a history entry. -/
theorem runEvent_grows (r : ℕ → ℚ) (e : Ev) (s : Sim) :
    Grows s.agents (runEvent r e s).agents := by
  cases e
  · exact eventAdvanceAgents_grows r s
  · exact evolves_grows (simEvolves_eventMoveAgents r s).2.2
  · exact grows_refl _
  · exact grows_refl _
  · exact grows_refl _

/-- No event list removes or rewrites a history entry. -/
theorem runEvents_grows (r : ℕ → ℚ) (evs : List Ev) :
    ∀ s : Sim, Grows s.agents (runEvents r s evs).agents := by
  induction evs with
  | nil => exact fun s => grows_refl _
  | cons e t ih =>
    intro s
    exact grows_trans (runEvent_grows r e s) (ih (runEvent r e s))

/-- No cluster-event fold removes or rewrites a history entry. -/
theorem clustersFold_grows (r : ℕ → ℚ) (f : Cluster → List Ev)
    (cls : List Cluster) : ∀ s : Sim,
    Grows s.agents ((cls.foldl (fun t c => runEvents r t (f c)) s)).agents := by
  induction cls with
  | nil => exact fun s => grows_refl _
  | cons c t ih =>
    intro s
    rw [List.foldl_cons]
    exact grows_trans (runEvents_grows r (f c) s) (ih (runEvents r s (f c)))

/-- A whole iteration only grows agent histories. -/
theorem oneIteration_grows (r : ℕ → ℚ) (s : Sim) :
    Grows s.agents (oneIteration r s).agents := by
  unfold oneIteration
  dsimp only
  have hfold := clustersFold_grows r Cluster.duringEvents s.clusters
    {s with eventPhase := EventPhase.DURING}
  split_ifs with h1 h2
  · unfold stop afterIteration
    dsimp only
    refine grows_trans hfold ?_
    refine grows_trans (show Grows
      (List.foldl (fun t c => runEvents r t c.duringEvents) {s with eventPhase := EventPhase.DURING} s.clusters).agents
      ((pause ({(List.foldl (fun t c => runEvents r t c.duringEvents) {s with eventPhase := EventPhase.DURING} s.clusters) with
        iteration := (List.foldl (fun t c => runEvents r t c.duringEvents) {s with eventPhase := EventPhase.DURING} s.clusters).iteration + 1} : Sim)).agents)
      from ?_) ?_
    · rw [pause_agents]
      exact grows_refl _
    · exact clustersFold_grows r Cluster.afterEvents _ _
  · exact hfold
  · exact hfold

/-- Replacing one agent by a grown version grows the list. -/
theorem grows_set {l : List Agent} {i : ℕ} {a b : Agent}
    (h : l.get? i = some a) (hab : AgentGrows a b) :
    Grows l (l.set i b) := by
  refine ⟨List.length_set l i b ▸ rfl, fun j x hx => ?_⟩
  by_cases hij : i = j
  · subst hij
    rw [h] at hx
    injection hx with hx
    subst hx
    refine ⟨b, ?_, hab⟩
    rw [List.get?_set_eq]
    have hlen : i < l.length := (List.get?_eq_some.mp h).1
    simp [hlen, h]
  · refine ⟨x, ?_, agentGrows_refl x⟩
    rw [List.get?_set_ne _ _ hij]
    exact hx

/-- One initial-state assignment only appends to the drawn agent's
history. -/
theorem initStep_grows (r : ℕ → ℚ) (t : Sim) (i : ℕ) :
    Grows t.agents (initStep r t i).agents := by
  unfold initStep
  cases hg : t.agents.get? i with
  | none => exact grows_refl _
  | some a =>
    dsimp only
    cases ha : assignInitial (clusterOf {t with rngIdx := t.rngIdx + 1} a).states
        (r t.rngIdx) with
    | none => exact grows_refl _
    | some pr =>
      dsimp only
      split_ifs
      · exact grows_set hg ⟨[(Marker.start, pr.1)], rfl⟩
      · exact grows_set hg ⟨[(Marker.start, pr.1)], rfl⟩

/-- The whole initial-state pass only appends to histories. -/
theorem calcInitialStates_grows (r : ℕ → ℚ) (s : Sim) (lo hi : ℕ) :
    Grows s.agents (calcInitialStates r s lo hi).agents := by
  unfold calcInitialStates
  generalize List.range' lo (hi - lo) = idxs
  induction idxs generalizing s with
  | nil => exact grows_refl _
  | cons i rest ih =>
    rw [List.foldl_cons]
    exact grows_trans (initStep_grows r s i) (ih _)

/-- Direction changes never touch the history. -/
theorem setDirection_states (d : ℚ) (a : Agent) :
    (setDirection d a).states = a.states := rfl

/-- The Agent constructor produces an empty history. -/
theorem mkAgent_states (cfg : Config) (id cIdx : ℕ) (cl : Cluster)
    (r : ℕ → ℚ) (i : ℕ) : (mkAgent cfg id cIdx cl r i).1.states = [] := by
  unfold mkAgent
  dsimp only
  rw [setDirection_states, correctPosition_states]

/-- C9: counterexample.  Immediately after construction an agent's
history is empty, so it is not non-empty and the current-compartment
query getStateKey has nothing to return (the source getStateKey throws a
TypeError there). -/
theorem claim9_empty_history_counterexample :
    ((generateAgents rAny (processOptions {}) 1 0).agents.get? 0).map Agent.states =
      some [] ∧
    ((generateAgents rAny (processOptions {}) 1 0).agents.get? 0).map getStateKey =
      some none := by
  have hg : (generateAgents rAny (processOptions {}) 1 0).agents.get? 0 =
      some (mkAgent (processOptions {}).config (processOptions {}).agentCounter 0
        ((processOptions {}).clusters.getD 0 emptyCluster) rAny
        (processOptions {}).rngIdx).1 := rfl
  rw [hg, Option.map_some', Option.map_some', mkAgent_states]
  refine ⟨rfl, ?_⟩
  rw [show getStateKey (mkAgent (processOptions {}).config
      (processOptions {}).agentCounter 0
      ((processOptions {}).clusters.getD 0 emptyCluster) rAny
      (processOptions {}).rngIdx).1 =
    ((mkAgent (processOptions {}).config (processOptions {}).agentCounter 0
      ((processOptions {}).clusters.getD 0 emptyCluster) rAny
      (processOptions {}).rngIdx).1.states.getLast?).map (fun e => e.2) from rfl]
  rw [mkAgent_states]
  rfl

/-- C9: amended.  The constructor leaves the history empty (so it is not
yet non-empty and the compartment query has nothing to return); from the
initial-state pass on, every operation of a run only appends to each
agent's history, so its length never decreases and no entry is removed
or rewritten, and the queried current compartment is by definition the
last entry. -/
theorem claim9_amended :
    (∀ (cfg : Config) (id2 cIdx : ℕ) (cl : Cluster) (r : ℕ → ℚ) (i : ℕ),
      (mkAgent cfg id2 cIdx cl r i).1.states = []) ∧
    (∀ (r : ℕ → ℚ) (s : Sim) (lo hi : ℕ),
      Grows s.agents (calcInitialStates r s lo hi).agents) ∧
    (∀ (r : ℕ → ℚ) (s : Sim), Grows s.agents (oneIteration r s).agents) :=
  ⟨mkAgent_states, calcInitialStates_grows, oneIteration_grows⟩

end EpiAgents
